import Mathlib

/-!
Verification development for the DuraGraph mock worker
(`tests/e2e/mock_worker/{graphs,events,executor,worker}.py`).

The Python code is shallowly embedded: dynamically-typed Python values
become the inductive `Val`; dicts become ordered association lists with
Python's insertion-order update semantics; in-place mutation becomes
explicit state passing; exceptions become explicit result constructors;
the unbounded `while` loop of `GraphExecutor.execute` takes a fuel
parameter (fuel exhaustion is reported by a dedicated constructor that
corresponds to no Python behaviour).  Wall-clock timestamps, `uuid4`
identifiers, `asyncio` sleeps and HTTP transport are modelled out:
durations are 0, checkpoint ids are the checkpoint's index in the run,
and the worker's control-plane posts are recorded in an ordered list.
-/

namespace Duragraph

/-- Python runtime values as they occur in this code base: `None`, bools,
ints, strings, lists and string-keyed dicts (modelled as ordered
association lists, mirroring Python dict insertion order). -/
inductive Val where
  | null
  | bool (b : Bool)
  | int (n : Int)
  | str (s : String)
  | list (xs : List Val)
  | dict (kvs : List (String × Val))
deriving Repr

mutual
/-- Structural equality test on `Val` (the automatic `DecidableEq`
derivation does not handle this nested inductive). -/
def Val.beq : Val → Val → Bool
  | .null, .null => true
  | .bool a, .bool b => a == b
  | .int a, .int b => a == b
  | .str a, .str b => a == b
  | .list xs, .list ys => Val.beqList xs ys
  | .dict xs, .dict ys => Val.beqPairs xs ys
  | _, _ => false

/-- Helper of `Val.beq` over list elements. -/
def Val.beqList : List Val → List Val → Bool
  | [], [] => true
  | x :: xs, y :: ys => Val.beq x y && Val.beqList xs ys
  | _, _ => false

/-- Helper of `Val.beq` over dict entries. -/
def Val.beqPairs : List (String × Val) → List (String × Val) → Bool
  | [], [] => true
  | (k, v) :: xs, (k2, v2) :: ys => k == k2 && Val.beq v v2 && Val.beqPairs xs ys
  | _, _ => false
end

mutual
/-- Soundness of `Val.beq`. -/
theorem Val.eq_of_beq : ∀ {a b : Val}, Val.beq a b = true → a = b
  | .null, .null, _ => rfl
  | .bool _, .bool _, h => by simpa [Val.beq] using h
  | .int _, .int _, h => by simpa [Val.beq] using h
  | .str _, .str _, h => by simpa [Val.beq] using h
  | .list xs, .list ys, h =>
      congrArg Val.list (Val.eqList_of_beqList (a := xs) (b := ys) (by simpa [Val.beq] using h))
  | .dict xs, .dict ys, h =>
      congrArg Val.dict (Val.eqPairs_of_beqPairs (a := xs) (b := ys) (by simpa [Val.beq] using h))

/-- Soundness of `Val.beqList`. -/
theorem Val.eqList_of_beqList : ∀ {a b : List Val}, Val.beqList a b = true → a = b
  | [], [], _ => rfl
  | x :: xs, y :: ys, h => by
      obtain ⟨h1, h2⟩ : Val.beq x y = true ∧ Val.beqList xs ys = true := by
        simpa [Val.beqList, Bool.and_eq_true] using h
      rw [Val.eq_of_beq (a := x) (b := y) h1, Val.eqList_of_beqList (a := xs) (b := ys) h2]

/-- Soundness of `Val.beqPairs`. -/
theorem Val.eqPairs_of_beqPairs : ∀ {a b : List (String × Val)}, Val.beqPairs a b = true → a = b
  | [], [], _ => rfl
  | (k, v) :: xs, (k2, v2) :: ys, h => by
      obtain ⟨⟨h0, h1⟩, h2⟩ :
          ((k = k2) ∧ Val.beq v v2 = true) ∧ Val.beqPairs xs ys = true := by
        simpa [Val.beqPairs, Bool.and_eq_true] using h
      rw [h0, Val.eq_of_beq (a := v) (b := v2) h1,
        Val.eqPairs_of_beqPairs (a := xs) (b := ys) h2]
end

mutual
/-- Reflexivity of `Val.beq`. -/
theorem Val.beq_refl : ∀ (a : Val), Val.beq a a = true
  | .null => rfl
  | .bool _ => by simp [Val.beq]
  | .int _ => by simp [Val.beq]
  | .str _ => by simp [Val.beq]
  | .list xs => by simpa [Val.beq] using Val.beqList_refl xs
  | .dict xs => by simpa [Val.beq] using Val.beqPairs_refl xs

/-- Reflexivity of `Val.beqList`. -/
theorem Val.beqList_refl : ∀ (a : List Val), Val.beqList a a = true
  | [] => rfl
  | x :: xs => by
      simp [Val.beqList, Bool.and_eq_true]
      exact ⟨Val.beq_refl x, Val.beqList_refl xs⟩

/-- Reflexivity of `Val.beqPairs`. -/
theorem Val.beqPairs_refl : ∀ (a : List (String × Val)), Val.beqPairs a a = true
  | [] => rfl
  | (k, v) :: xs => by
      simp [Val.beqPairs, Bool.and_eq_true]
      exact ⟨Val.beq_refl v, Val.beqPairs_refl xs⟩
end

instance : DecidableEq Val := fun a b =>
  decidable_of_iff (Val.beq a b = true)
    ⟨Val.eq_of_beq, fun h => h ▸ Val.beq_refl a⟩

/-- Python truthiness (`if x:`) for the value shapes that occur here. -/
def Val.truthy : Val → Bool
  | .null => false
  | .bool b => b
  | .int n => n != 0
  | .str s => s != ""
  | .list xs => !xs.isEmpty
  | .dict kvs => !kvs.isEmpty

/-- Reads an int, treating Python bools as ints (`True == 1`); any other
shape falls back to the default (the source only ever stores ints where
this is used). -/
def Val.asIntD (v : Val) (d : Int) : Int :=
  match v with
  | .int n => n
  | .bool b => if b then 1 else 0
  | _ => d

/-- Reads a dict payload; non-dict shapes read as empty (the source only
ever stores dicts where this is used). -/
def Val.asDictD (v : Val) : List (String × Val) :=
  match v with
  | .dict kvs => kvs
  | _ => []

/-- Reads a list payload; non-list shapes read as empty (the source only
ever stores lists where this is used). -/
def Val.asListD (v : Val) : List Val :=
  match v with
  | .list xs => xs
  | _ => []

mutual
/-- Python `repr` for the value shapes that occur here (used by `str` on
containers: `str(x) == repr(x)` for everything except top-level
strings). -/
def Val.pyRepr : Val → String
  | .null => "None"
  | .bool true => "True"
  | .bool false => "False"
  | .int n => toString n
  | .str s => "\x27" ++ s ++ "\x27"
  | .list xs => "[" ++ String.intercalate ", " (Val.pyReprList xs) ++ "]"
  | .dict kvs => "\x7b" ++ String.intercalate ", " (Val.pyReprPairs kvs) ++ "\x7d"

/-- Helper of `Val.pyRepr` over list elements. -/
def Val.pyReprList : List Val → List String
  | [] => []
  | x :: xs => Val.pyRepr x :: Val.pyReprList xs

/-- Helper of `Val.pyRepr` over dict entries. -/
def Val.pyReprPairs : List (String × Val) → List String
  | [] => []
  | (k, v) :: xs => ("\x27" ++ k ++ "\x27: " ++ Val.pyRepr v) :: Val.pyReprPairs xs
end

/-- Python `str(x)`: identical to `repr` except that a top-level string
is returned unquoted. -/
def Val.pyStr (v : Val) : String :=
  match v with
  | .str s => s
  | _ => Val.pyRepr v

/-! ### Character-list string helpers

Core `String.replace`/`String.splitOn`/`String.trim` are defined by
well-founded recursion and do not reduce in the kernel, so the string
operations the executor needs are re-implemented structurally over
`List Char` (with a fuel argument where the recursion is not
structural).  Semantics follow the Python operations they model. -/

/-- Tests whether `p` is an initial segment of `s`. -/
def prefCheck : List Char → List Char → Bool
  | [], _ => true
  | _ :: _, [] => false
  | p :: ps, c :: cs => p == c && prefCheck ps cs

/-- Fuelled worker for `pyReplace`: replaces non-overlapping occurrences
of `pat` left to right, like Python `str.replace`. -/
def replaceFuel : Nat → List Char → List Char → List Char → List Char
  | 0, s, _, _ => s
  | _ + 1, [], _, _ => []
  | fuel + 1, c :: cs, pat, rep =>
    if prefCheck pat (c :: cs) then
      rep ++ replaceFuel fuel (List.drop (pat.length - 1) cs) pat rep
    else
      c :: replaceFuel fuel cs pat rep

/-- Python `s.replace(pat, rep)` for non-empty `pat` (every pattern the
executor builds is of the form `"{" ++ key ++ "}"`, hence non-empty; an
empty pattern returns `s` unchanged here). -/
def pyReplace (s pat rep : String) : String :=
  if pat.data.isEmpty then s
  else String.mk (replaceFuel (s.data.length + 1) s.data pat.data rep.data)

/-- Splits `s` on every occurrence of the non-empty separator `sep`,
like Python `s.split(sep)` (fuelled worker). -/
def splitFuel : Nat → List Char → List Char → List Char → List (List Char)
  | 0, acc, _, _ => [acc.reverse]
  | _ + 1, acc, [], _ => [acc.reverse]
  | fuel + 1, acc, c :: cs, sep =>
    if prefCheck sep (c :: cs) then
      acc.reverse :: splitFuel fuel [] (List.drop (sep.length - 1) cs) sep
    else
      splitFuel fuel (c :: acc) cs sep

/-- Python `s.split(sep)` for a non-empty separator. -/
def pySplit (s sep : String) : List String :=
  if sep.data.isEmpty then [s]
  else (splitFuel (s.data.length + 1) [] s.data sep.data).map String.mk

/-- Python `s.strip()`: removes whitespace from both ends. -/
def pyStrip (s : String) : String :=
  String.mk (((s.data.dropWhile Char.isWhitespace).reverse.dropWhile
    Char.isWhitespace).reverse)

/-- Quote characters stripped by `str.strip("'\"")` in
`_evaluate_condition`. -/
def isQuoteChar (c : Char) : Bool :=
  c == Char.ofNat 39 || c == Char.ofNat 34

/-- Python `s.strip("'\"")`: removes single/double quotes from both
ends. -/
def stripQuotes (s : String) : String :=
  String.mk (((s.data.dropWhile isQuoteChar).reverse.dropWhile
    isQuoteChar).reverse)

/-- Python `len(s)` (code points). -/
def pyLen (s : String) : Nat := s.data.length

/-- Python `s[:n]` (first `n` code points). -/
def pyTake (s : String) (n : Nat) : String := String.mk (s.data.take n)

/-! ### Python dicts as ordered association lists -/

/-- A Python dict with string keys, in insertion order. -/
abbrev Dict := List (String × Val)

/-- Python `d.get(k)` / `d[k]`: the value at the first occurrence of the
key. -/
def dGet? (d : Dict) (k : String) : Option Val :=
  match d with
  | [] => none
  | (k', v) :: rest => if k' = k then some v else dGet? rest k

/-- Python `d.get(k, default)`. -/
def dGetD (d : Dict) (k : String) (dflt : Val) : Val :=
  (dGet? d k).getD dflt

/-- Python `k in d`. -/
def dHasKey (d : Dict) (k : String) : Bool :=
  (dGet? d k).isSome

/-- Python `d.get(k, default)` where the result is consumed as an int
(present non-int values read as 0; they never occur in the source's
data). -/
def dGetIntD (d : Dict) (k : String) (dflt : Int) : Int :=
  match dGet? d k with
  | some v => v.asIntD 0
  | none => dflt

/-- Python `d[k] = v`: replaces the value at an existing key in place
(keeping its position), otherwise appends the new key at the end. -/
def dSet (d : Dict) (k : String) (v : Val) : Dict :=
  match d with
  | [] => [(k, v)]
  | (k', v') :: rest => if k' = k then (k, v) :: rest else (k', v') :: dSet rest k v

/-- Python `d.update(u)`: applies `d[k] = v` for every entry of `u` in
order. -/
def dUpdate (d u : Dict) : Dict :=
  u.foldl (fun acc kv => dSet acc kv.1 kv.2) d

/-- Python `d.pop(k, None)` aftermath: the dict without the key (a real
dict holds each key at most once). -/
def dErase (d : Dict) (k : String) : Dict :=
  d.filter (fun kv => kv.1 ≠ k)

/-- Python `list(d.keys())`. -/
def dKeys (d : Dict) : List String := d.map Prod.fst

/-! ## `graphs.py`: graph model and registry -/

/-- `NodeType` enum (`graphs.py`); the `"end"` member is named `endNode`
because `end` is a Lean keyword. -/
inductive NodeType where
  | start
  | endNode
  | llm
  | tool
  | router
  | human
deriving Repr, DecidableEq

/-- The string value of a `NodeType` member (`n.type.value`). -/
def NodeType.toStr : NodeType → String
  | .start => "start"
  | .endNode => "end"
  | .llm => "llm"
  | .tool => "tool"
  | .router => "router"
  | .human => "human"

/-- A node in the graph (`graphs.py: Node`). -/
structure Node where
  id : String
  type : NodeType
  config : Dict := []
deriving Repr, DecidableEq

/-- An edge connecting nodes (`graphs.py: Edge`). -/
structure Edge where
  source : String
  target : String
  condition : Option String := none
deriving Repr, DecidableEq

/-- A complete graph definition (`graphs.py: Graph`). -/
structure Graph where
  id : String
  name : String
  description : String
  nodes : List Node
  edges : List Edge
  entryPoint : String := "__start__"
deriving Repr, DecidableEq

/-- `SIMPLE_ECHO` (`graphs.py`). -/
def SIMPLE_ECHO : Graph :=
  { id := "simple_echo"
    name := "Simple Echo"
    description := "Single node that echoes input"
    nodes :=
      [ { id := "__start__", type := .start }
      , { id := "echo", type := .llm
          config :=
            [ ("response_template", .str "Echo: \x7bmessage\x7d")
            , ("simulated_tokens", .dict [("input", .int 10), ("output", .int 15)]) ] }
      , { id := "__end__", type := .endNode } ]
    edges :=
      [ { source := "__start__", target := "echo" }
      , { source := "echo", target := "__end__" } ]
    entryPoint := "echo" }

/-- `MULTI_STEP` (`graphs.py`). -/
def MULTI_STEP : Graph :=
  { id := "multi_step"
    name := "Multi-Step Processing"
    description := "Multiple sequential nodes with state passing"
    nodes :=
      [ { id := "__start__", type := .start }
      , { id := "classify", type := .llm
          config :=
            [ ("response_template", .str "Classified intent: general_inquiry")
            , ("output_key", .str "intent")
            , ("output_value", .str "general_inquiry")
            , ("simulated_tokens", .dict [("input", .int 50), ("output", .int 20)]) ] }
      , { id := "process", type := .llm
          config :=
            [ ("response_template", .str "Processing intent: \x7bintent\x7d")
            , ("output_key", .str "processed")
            , ("output_value", .bool true)
            , ("simulated_tokens", .dict [("input", .int 80), ("output", .int 40)]) ] }
      , { id := "respond", type := .llm
          config :=
            [ ("response_template",
               .str "Based on your inquiry, here is my response: \x7bmessage\x7d")
            , ("simulated_tokens", .dict [("input", .int 120), ("output", .int 100)]) ] }
      , { id := "__end__", type := .endNode } ]
    edges :=
      [ { source := "__start__", target := "classify" }
      , { source := "classify", target := "process" }
      , { source := "process", target := "respond" }
      , { source := "respond", target := "__end__" } ]
    entryPoint := "classify" }

/-- `BRANCHING` (`graphs.py`). -/
def BRANCHING : Graph :=
  { id := "branching"
    name := "Branching Router"
    description := "Conditional routing based on input"
    nodes :=
      [ { id := "__start__", type := .start }
      , { id := "router", type := .router
          config :=
            [ ("route_key", .str "route")
            , ("routes", .dict [("a", .str "path_a"), ("b", .str "path_b")])
            , ("default", .str "path_a") ] }
      , { id := "path_a", type := .llm
          config :=
            [ ("response_template", .str "Took path A for: \x7bmessage\x7d")
            , ("output_key", .str "path_taken")
            , ("output_value", .str "a")
            , ("simulated_tokens", .dict [("input", .int 30), ("output", .int 25)]) ] }
      , { id := "path_b", type := .llm
          config :=
            [ ("response_template", .str "Took path B for: \x7bmessage\x7d")
            , ("output_key", .str "path_taken")
            , ("output_value", .str "b")
            , ("simulated_tokens", .dict [("input", .int 30), ("output", .int 25)]) ] }
      , { id := "__end__", type := .endNode } ]
    edges :=
      [ { source := "__start__", target := "router" }
      , { source := "router", target := "path_a", condition := some "route == \x27a\x27" }
      , { source := "router", target := "path_b", condition := some "route == \x27b\x27" }
      , { source := "path_a", target := "__end__" }
      , { source := "path_b", target := "__end__" } ]
    entryPoint := "router" }

/-- `TOOL_CALLING` (`graphs.py`). -/
def TOOL_CALLING : Graph :=
  { id := "tool_calling"
    name := "Tool Calling Agent"
    description := "Agent that calls tools and uses results"
    nodes :=
      [ { id := "__start__", type := .start }
      , { id := "agent_think", type := .llm
          config :=
            [ ("response_template",
               .str "I need to search for information about: \x7bmessage\x7d")
            , ("tool_calls",
               .list [.dict [ ("name", .str "search")
                            , ("arguments", .dict [("query", .str "\x7bmessage\x7d")]) ]])
            , ("simulated_tokens", .dict [("input", .int 60), ("output", .int 40)]) ] }
      , { id := "execute_tools", type := .tool
          config :=
            [ ("tools", .dict
                [ ("search", .dict
                    [ ("response", .dict
                        [ ("results", .list
                            [ .str "Result 1: Relevant information found"
                            , .str "Result 2: Additional context" ]) ]) ])
                , ("calculator", .dict
                    [ ("response", .dict [("result", .int 42)]) ]) ]) ] }
      , { id := "agent_respond", type := .llm
          config :=
            [ ("response_template",
               .str "Based on my search, I found: \x7btool_results\x7d. Here\x27s my answer to \x27\x7bmessage\x7d\x27.")
            , ("simulated_tokens", .dict [("input", .int 150), ("output", .int 80)]) ] }
      , { id := "__end__", type := .endNode } ]
    edges :=
      [ { source := "__start__", target := "agent_think" }
      , { source := "agent_think", target := "execute_tools" }
      , { source := "execute_tools", target := "agent_respond" }
      , { source := "agent_respond", target := "__end__" } ]
    entryPoint := "agent_think" }

/-- `HUMAN_INTERRUPT` (`graphs.py`). -/
def HUMAN_INTERRUPT : Graph :=
  { id := "human_interrupt"
    name := "Human-in-the-Loop"
    description := "Requires human approval before completing"
    nodes :=
      [ { id := "__start__", type := .start }
      , { id := "draft", type := .llm
          config :=
            [ ("response_template",
               .str "Draft response: I\x27ve prepared an answer to \x27\x7bmessage\x7d\x27")
            , ("output_key", .str "draft")
            , ("output_value", .str "Prepared draft response")
            , ("simulated_tokens", .dict [("input", .int 50), ("output", .int 60)]) ] }
      , { id := "human_review", type := .human
          config :=
            [ ("interrupt", .bool true)
            , ("prompt", .str "Please review and approve this draft response")
            , ("required_fields", .list [.str "approved"]) ] }
      , { id := "finalize", type := .llm
          config :=
            [ ("response_template", .str "Final approved response: \x7bdraft\x7d")
            , ("simulated_tokens", .dict [("input", .int 80), ("output", .int 50)]) ] }
      , { id := "__end__", type := .endNode } ]
    edges :=
      [ { source := "__start__", target := "draft" }
      , { source := "draft", target := "human_review" }
      , { source := "human_review", target := "finalize" }
      , { source := "finalize", target := "__end__" } ]
    entryPoint := "draft" }

/-- `LONG_RUNNING` (`graphs.py`). -/
def LONG_RUNNING : Graph :=
  { id := "long_running"
    name := "Long Running Process"
    description := "Multiple iterations with delays for testing timeouts"
    nodes :=
      [ { id := "__start__", type := .start }
      , { id := "init", type := .llm
          config :=
            [ ("response_template", .str "Initializing long process for: \x7bmessage\x7d")
            , ("output_key", .str "iteration")
            , ("output_value", .int 0)
            , ("simulated_tokens", .dict [("input", .int 20), ("output", .int 15)]) ] }
      , { id := "loop", type := .llm
          config :=
            [ ("response_template", .str "Processing iteration \x7biteration\x7d")
            , ("loop_count", .int 5)
            , ("loop_delay_ms", .int 500)
            , ("simulated_tokens", .dict [("input", .int 30), ("output", .int 20)]) ] }
      , { id := "complete", type := .llm
          config :=
            [ ("response_template",
               .str "Completed all iterations. Final result for: \x7bmessage\x7d")
            , ("simulated_tokens", .dict [("input", .int 40), ("output", .int 30)]) ] }
      , { id := "__end__", type := .endNode } ]
    edges :=
      [ { source := "__start__", target := "init" }
      , { source := "init", target := "loop" }
      , { source := "loop", target := "complete" }
      , { source := "complete", target := "__end__" } ]
    entryPoint := "init" }

/-- `FAILURE` (`graphs.py`). -/
def FAILURE : Graph :=
  { id := "failure"
    name := "Failure Test"
    description := "Fails at a specific node for error testing"
    nodes :=
      [ { id := "__start__", type := .start }
      , { id := "start_ok", type := .llm
          config :=
            [ ("response_template", .str "Starting process...")
            , ("simulated_tokens", .dict [("input", .int 10), ("output", .int 10)]) ] }
      , { id := "fail_here", type := .llm
          config :=
            [ ("should_fail", .bool true)
            , ("error_message", .str "Simulated failure: LLM rate limit exceeded") ] }
      , { id := "never_reached", type := .llm
          config :=
            [ ("response_template", .str "This should never execute") ] }
      , { id := "__end__", type := .endNode } ]
    edges :=
      [ { source := "__start__", target := "start_ok" }
      , { source := "start_ok", target := "fail_here" }
      , { source := "fail_here", target := "never_reached" }
      , { source := "never_reached", target := "__end__" } ]
    entryPoint := "start_ok" }

/-- The graph registry `GRAPHS` (`graphs.py`), in declaration order. -/
def GRAPHS : List (String × Graph) :=
  [ ("simple_echo", SIMPLE_ECHO)
  , ("multi_step", MULTI_STEP)
  , ("branching", BRANCHING)
  , ("tool_calling", TOOL_CALLING)
  , ("human_interrupt", HUMAN_INTERRUPT)
  , ("long_running", LONG_RUNNING)
  , ("failure", FAILURE) ]

/-- `get_graph` (`graphs.py`): `none` models the `ValueError` raised for
an unknown graph id. -/
def getGraph (graphId : String) : Option Graph :=
  (GRAPHS.find? (fun p => p.1 == graphId)).map Prod.snd

/-- The message of the `ValueError` raised by `get_graph`. -/
def unknownGraphMessage (graphId : String) : String :=
  "Unknown graph: " ++ graphId ++ ". Available: "
    ++ Val.pyRepr (.list (GRAPHS.map (fun p => .str p.1)))

/-! ## `events.py`: event types and emission -/

/-- `EventType` enum (`events.py`). -/
inductive EventType where
  | runStarted
  | runCompleted
  | runFailed
  | runInterrupted
  | nodeStarted
  | nodeCompleted
  | nodeFailed
  | llmStart
  | llmEnd
  | llmStream
  | toolStart
  | toolEnd
  | checkpointCreated
  | stateUpdate
deriving Repr, DecidableEq

/-- The string value of an `EventType` member. -/
def EventType.toStr : EventType → String
  | .runStarted => "run.started"
  | .runCompleted => "run.completed"
  | .runFailed => "run.failed"
  | .runInterrupted => "run.interrupted"
  | .nodeStarted => "node.started"
  | .nodeCompleted => "node.completed"
  | .nodeFailed => "node.failed"
  | .llmStart => "llm.start"
  | .llmEnd => "llm.end"
  | .llmStream => "llm.stream"
  | .toolStart => "tool.start"
  | .toolEnd => "tool.end"
  | .checkpointCreated => "checkpoint.created"
  | .stateUpdate => "state.update"

/-- An event emitted during execution (`events.py: Event`); the
wall-clock `timestamp` field is modelled out. -/
structure Event where
  type : EventType
  runId : String
  nodeId : Option String := none
  data : Dict := []
deriving Repr, DecidableEq

/-- Collects events during execution (`events.py: EventEmitter`); the
real-time listener callbacks are modelled out — they cannot change the
event log, since a raising listener is swallowed. -/
structure Emitter where
  runId : String
  events : List Event := []
deriving Repr, DecidableEq

/-- `EventEmitter.emit`: appends to the ordered event log. -/
def Emitter.emit (em : Emitter) (e : Event) : Emitter :=
  { em with events := em.events ++ [e] }

/-- `EventEmitter.run_started`. -/
def Emitter.runStarted (em : Emitter) (inputData : Dict) : Emitter :=
  em.emit { type := .runStarted, runId := em.runId, data := [("input", .dict inputData)] }

/-- `EventEmitter.run_completed` (`duration_ms` is modelled as 0 by the
callers, wall clocks being out of scope). -/
def Emitter.runCompleted (em : Emitter) (output : Dict) (durationMs : Int) : Emitter :=
  em.emit { type := .runCompleted, runId := em.runId
            data := [("output", .dict output), ("duration_ms", .int durationMs)] }

/-- `EventEmitter.run_failed`. -/
def Emitter.runFailed (em : Emitter) (error : String) (nodeId : Option String) : Emitter :=
  em.emit { type := .runFailed, runId := em.runId, nodeId := nodeId
            data := [("error", .str error)] }

/-- `EventEmitter.run_interrupted`. -/
def Emitter.runInterrupted (em : Emitter) (nodeId : String) (interruptData : Dict) : Emitter :=
  em.emit { type := .runInterrupted, runId := em.runId, nodeId := some nodeId
            data := interruptData }

/-- `EventEmitter.node_started`. -/
def Emitter.nodeStarted (em : Emitter) (nodeId : String) (nodeType : String)
    (inputData : Dict) : Emitter :=
  em.emit { type := .nodeStarted, runId := em.runId, nodeId := some nodeId
            data := [("node_type", .str nodeType), ("input", .dict inputData)] }

/-- `EventEmitter.node_completed`. -/
def Emitter.nodeCompleted (em : Emitter) (nodeId : String) (output : Dict)
    (durationMs : Int) : Emitter :=
  em.emit { type := .nodeCompleted, runId := em.runId, nodeId := some nodeId
            data := [("output", .dict output), ("duration_ms", .int durationMs)] }

/-- `EventEmitter.node_failed`. -/
def Emitter.nodeFailed (em : Emitter) (nodeId : String) (error : String) : Emitter :=
  em.emit { type := .nodeFailed, runId := em.runId, nodeId := some nodeId
            data := [("error", .str error)] }

/-- Preview truncation used by `llm_start`/`llm_end`:
`s[:200] + "..." if len(s) > 200 else s`. -/
def preview (s : String) : String :=
  if 200 < pyLen s then pyTake s 200 ++ "..." else s

/-- `EventEmitter.llm_start` (the model name is whatever value the node
config supplied). -/
def Emitter.llmStart (em : Emitter) (nodeId : String) (model : Val) (prompt : String) : Emitter :=
  em.emit { type := .llmStart, runId := em.runId, nodeId := some nodeId
            data := [("model", model), ("prompt_preview", .str (preview prompt))] }

/-- `EventEmitter.llm_end`: the `total` token count is computed as
`input + output` at emission. -/
def Emitter.llmEnd (em : Emitter) (nodeId : String) (model : Val) (response : String)
    (tokensInput tokensOutput : Int) (durationMs : Int) : Emitter :=
  em.emit { type := .llmEnd, runId := em.runId, nodeId := some nodeId
            data :=
              [ ("model", model)
              , ("response_preview", .str (preview response))
              , ("tokens", .dict
                  [ ("input", .int tokensInput)
                  , ("output", .int tokensOutput)
                  , ("total", .int (tokensInput + tokensOutput)) ])
              , ("duration_ms", .int durationMs) ] }

/-- `EventEmitter.tool_start`. -/
def Emitter.toolStart (em : Emitter) (nodeId : String) (toolName : Val)
    (arguments : Dict) : Emitter :=
  em.emit { type := .toolStart, runId := em.runId, nodeId := some nodeId
            data := [("tool", toolName), ("arguments", .dict arguments)] }

/-- `EventEmitter.tool_end`. -/
def Emitter.toolEnd (em : Emitter) (nodeId : String) (toolName : Val) (result : Val)
    (durationMs : Int) : Emitter :=
  em.emit { type := .toolEnd, runId := em.runId, nodeId := some nodeId
            data := [("tool", toolName), ("result", result), ("duration_ms", .int durationMs)] }

/-- `EventEmitter.checkpoint_created`. -/
def Emitter.checkpointCreated (em : Emitter) (checkpointId : Val) (nodeId : String)
    (state : Dict) : Emitter :=
  em.emit { type := .checkpointCreated, runId := em.runId, nodeId := some nodeId
            data := [ ("checkpoint_id", checkpointId)
                    , ("state_keys", .list ((dKeys state).map .str)) ] }

/-- The `(total_input, total_output)` accumulation loop of
`EventEmitter.get_token_summary`: only `llm.end` events contribute. -/
def tokenTotals (events : List Event) : Int × Int :=
  events.foldl
    (fun acc e =>
      if e.type = .llmEnd then
        let tokens := (dGetD e.data "tokens" (.dict [])).asDictD
        (acc.1 + dGetIntD tokens "input" 0, acc.2 + dGetIntD tokens "output" 0)
      else acc)
    (0, 0)

/-- `EventEmitter.get_token_summary`. -/
def Emitter.getTokenSummary (em : Emitter) : Dict :=
  let acc := tokenTotals em.events
  [ ("input", .int acc.1)
  , ("output", .int acc.2)
  , ("total", .int (acc.1 + acc.2)) ]

/-! ## `executor.py`: the graph executor -/

/-- The exceptions raised by the executor: `ExecutionError(message,
node_id)` and `InterruptError(node_id, prompt, required_fields)`.
`prompt` and `requiredFields` carry the raw config values the source
passes along. -/
inductive ExecErr where
  | execError (msg : String) (nodeId : Option String)
  | interrupt (nodeId : String) (prompt : Val) (requiredFields : Val)
deriving Repr, DecidableEq

/-- A checkpoint (`ExecutionState.create_checkpoint`).  The `uuid4`
checkpoint id is modelled as the checkpoint's index within the run; the
`values.copy()` / `messages.copy()` / `nodes_executed.copy()` snapshots
become value captures (the executor only ever rebinds top-level keys
and appends to these containers, never mutates data nested inside
them, so the shallow copies behave as full snapshots). -/
structure Checkpoint where
  checkpointId : Nat
  nodeId : String
  values : Dict
  messages : List Val
  nodesExecuted : List Val
deriving Repr, DecidableEq

/-- `ExecutionState` (`executor.py`). `nodes_executed` entries restored
from an `initial_state` payload can be arbitrary values, so the list
holds `Val`; the executor itself appends node-id strings. -/
structure ExecutionState where
  values : Dict := []
  messages : List Val := []
  currentNode : Option String := none
  nodesExecuted : List Val := []
  checkpoints : List Checkpoint := []
deriving Repr, DecidableEq

/-- `ExecutionState.update`. -/
def ExecutionState.update (st : ExecutionState) (k : String) (v : Val) : ExecutionState :=
  { st with values := dSet st.values k v }

/-- `ExecutionState.get` with explicit default. -/
def ExecutionState.get (st : ExecutionState) (k : String) (dflt : Val) : Val :=
  dGetD st.values k dflt

/-- `ExecutionState.to_dict`. -/
def ExecutionState.toDict (st : ExecutionState) : Dict :=
  [ ("values", .dict st.values)
  , ("messages", .list st.messages)
  , ("current_node", match st.currentNode with | some n => .str n | none => .null)
  , ("nodes_executed", .list st.nodesExecuted) ]

/-- `ExecutionState.create_checkpoint`: returns the new checkpoint and
the state with it appended. -/
def ExecutionState.createCheckpoint (st : ExecutionState) (nodeId : String) :
    Checkpoint × ExecutionState :=
  let cp : Checkpoint :=
    { checkpointId := st.checkpoints.length
      nodeId := nodeId
      values := st.values
      messages := st.messages
      nodesExecuted := st.nodesExecuted }
  (cp, { st with checkpoints := st.checkpoints ++ [cp] })

/-- `GraphExecutor` construction parameters.  The per-node `_nodes`
lookup and `_edges` adjacency of `__init__` are recomputed functionally
(`lookupNode`, `outgoing`). -/
structure GraphExecutor where
  graph : Graph
  delayMs : Int := 100
  failAtNode : Option String := none
  interruptAtNode : Option String := none
  tokenCount : Int := 100
deriving Repr, DecidableEq

/-- The `_nodes` dict lookup: Python's dict comprehension keeps the last
node with a given id, hence the reversed search. -/
def lookupNode (nodes : List Node) (nodeId : String) : Option Node :=
  nodes.reverse.find? (fun n => n.id == nodeId)

/-- The `_edges` adjacency list for one source node, in declaration
order. -/
def outgoing (g : Graph) (nodeId : String) : List Edge :=
  g.edges.filter (fun e => e.source == nodeId)

/-- `GraphExecutor._evaluate_condition`: parses `"key == literal"`,
compares `str(state.get(key))` with the literal stripped of quotes;
anything unparsable is false. -/
def evaluateCondition (condition : String) (st : ExecutionState) : Bool :=
  match pySplit condition "==" with
  | [k, e] =>
    let key := pyStrip k
    let expected := stripQuotes (pyStrip e)
    Val.pyStr (st.get key .null) == expected
  | _ => false

/-- The conditional-edge scan of `_get_next_node`: first edge whose
condition holds (an unconditional edge always matches). -/
def condNext (st : ExecutionState) : List Edge → Option String
  | [] => none
  | e :: rest =>
    match e.condition with
    | some c => if evaluateCondition c st then some e.target else condNext st rest
    | none => some e.target

/-- A config value used where the source expects a node-id string.
Non-string values (absent from every registered graph) coerce via
`str`; Python would carry the raw value into the node lookup and fail
it just the same. -/
def valAsNodeId (v : Val) : String :=
  match v with
  | .str s => s
  | v => Val.pyStr v

/-- `GraphExecutor._get_next_node`.  Router nodes consult their config;
other nodes scan their outgoing edges; no outgoing edges means the
terminal sentinel. -/
def getNextNode (ex : GraphExecutor) (nodes : List Node) (cur : String)
    (st : ExecutionState) : String :=
  let edges := outgoing ex.graph cur
  match edges with
  | [] => "__end__"
  | e0 :: _ =>
    match lookupNode nodes cur with
    | some n =>
      if n.type = .router then
        let config := n.config
        let routeKey := Val.pyStr (dGetD config "route_key" (.str "route"))
        let routeValue := st.get routeKey .null
        let routes := (dGetD config "routes" (.dict [])).asDictD
        match routeValue with
        | .str s =>
          match dGet? routes s with
          | some target => valAsNodeId target
          | none => valAsNodeId (dGetD config "default" (.str e0.target))
        | _ => valAsNodeId (dGetD config "default" (.str e0.target))
      else
        match condNext st edges with
        | some target => target
        | none => e0.target
    | none =>
      match condNext st edges with
      | some target => target
      | none => e0.target

/-- Placeholder substitution used by `_execute_llm_node` (and, per
argument string, by `_execute_tool_node`): every state entry's
`{key}` is replaced by `str(value)`, in state insertion order. -/
def substPlaceholders (values : Dict) (template : String) : String :=
  values.foldl
    (fun resp kv => pyReplace resp ("\x7b" ++ kv.1 ++ "\x7d") (Val.pyStr kv.2))
    template

/-- The outcome of one node-body execution: either the updated state and
emitter, or a raised exception together with the state and emitter at
the moment of the raise (Python mutations before a raise persist). -/
inductive StepOut where
  | ok (st : ExecutionState) (em : Emitter)
  | err (e : ExecErr) (st : ExecutionState) (em : Emitter)
deriving Repr, DecidableEq

/-- `GraphExecutor._execute_llm_node`.  The 50ms simulated latency is
modelled out; the `llm.end` duration argument is the literal 50 of the
source. -/
def executeLLMNode (ex : GraphExecutor) (node : Node) (st : ExecutionState)
    (em : Emitter) : StepOut :=
  let config := node.config
  if (dGetD config "should_fail" .null).truthy then
    .err (.execError (Val.pyStr (dGetD config "error_message"
      (.str "Simulated LLM failure"))) (some node.id)) st em
  else
    let model := dGetD config "model" (.str "gpt-4-mock")
    let template := Val.pyStr (dGetD config "response_template" (.str "Mock response"))
    let response := substPlaceholders st.values template
    let tokens := (dGetD config "simulated_tokens" (.dict [])).asDictD
    let tokensInput := dGetIntD tokens "input" ex.tokenCount
    let tokensOutput := dGetIntD tokens "output" (Int.fdiv ex.tokenCount 2)
    let em := em.llmStart node.id model template
    let em := em.llmEnd node.id model response tokensInput tokensOutput 50
    let st := if dHasKey config "output_key" then
        st.update (Val.pyStr (dGetD config "output_key" .null))
          (dGetD config "output_value" (.str response))
      else st
    let st := st.update "last_response" (.str response)
    let st := { st with messages := st.messages ++
      [.dict [ ("role", .str "assistant")
             , ("content", .str response)
             , ("node_id", .str node.id) ]] }
    let st := if dHasKey config "tool_calls" then
        st.update "pending_tool_calls" (dGetD config "tool_calls" .null)
      else st
    let st := if dHasKey config "loop_count" then
        let iteration := (st.get "_loop_iteration" (.int 0)).asIntD 0
        if iteration < (dGetD config "loop_count" .null).asIntD 0 - 1 then
          st.update "_loop_iteration" (.int (iteration + 1))
        else st
      else st
    .ok st em

/-- The per-call body of `_execute_tool_node`'s loop: format arguments,
emit `tool.start`/`tool.end`, look up the configured response. -/
def executeToolCall (node : Node) (tools : Dict) (st : ExecutionState)
    (acc : List Val × Emitter) (call : Val) : List Val × Emitter :=
  let callD := call.asDictD
  let toolName := dGetD callD "name" .null
  let arguments := (dGetD callD "arguments" (.dict [])).asDictD
  let formattedArgs := arguments.foldl
    (fun facc kv =>
      let v := match kv.2 with
        | .str s => Val.str (substPlaceholders st.values s)
        | v => v
      dSet facc kv.1 v)
    []
  let em := acc.2.toolStart node.id toolName formattedArgs
  let toolConfig := (match toolName with
    | .str s => dGetD tools s (.dict [])
    | _ => .dict []).asDictD
  let result := dGetD toolConfig "response" (.dict [("result", .str "mock_result")])
  let em := em.toolEnd node.id toolName result 20
  (acc.1 ++ [.dict [("tool", toolName), ("result", result)]], em)

/-- `GraphExecutor._execute_tool_node`. -/
def executeToolNode (node : Node) (st : ExecutionState) (em : Emitter) :
    ExecutionState × Emitter :=
  let tools := (dGetD node.config "tools" (.dict [])).asDictD
  let pendingCalls := (st.get "pending_tool_calls" (.list [])).asListD
  let acc := pendingCalls.foldl (executeToolCall node tools st) ([], em)
  let st := st.update "tool_results" (.list acc.1)
  let st := st.update "pending_tool_calls" (.list [])
  (st, acc.2)

/-- `GraphExecutor._execute_human_node`. -/
def executeHumanNode (node : Node) (st : ExecutionState) : Except ExecErr ExecutionState :=
  let config := node.config
  if (dGetD config "interrupt" (.bool false)).truthy then
    if (st.get "_human_approved" .null).truthy then
      .ok (st.update "_human_approved" (.bool false))
    else
      .error (.interrupt node.id
        (dGetD config "prompt" (.str "Human review required"))
        (dGetD config "required_fields" (.list [])))
  else
    .ok st

/-- `GraphExecutor._execute_node`: emits `node.started`, dispatches on
the node type, then either emits `node.completed` (durations modelled
as 0), re-raises an interrupt untouched, or emits `node.failed` and
wraps the error with this node's id. -/
def executeNode (ex : GraphExecutor) (node : Node) (st : ExecutionState)
    (em : Emitter) : StepOut :=
  let em := em.nodeStarted node.id node.type.toStr
    [("state_keys", .list ((dKeys st.values).map .str))]
  let out : StepOut :=
    match node.type with
    | .start => .ok st em
    | .endNode => .ok st em
    | .llm => executeLLMNode ex node st em
    | .tool =>
      let r := executeToolNode node st em
      .ok r.1 r.2
    | .router => .ok st em
    | .human =>
      match executeHumanNode node st with
      | .ok st => .ok st em
      | .error e => .err e st em
  match out with
  | .ok st em =>
    .ok st (em.nodeCompleted node.id
      [("state_keys", .list ((dKeys st.values).map .str))] 0)
  | .err (.interrupt a b c) st em => .err (.interrupt a b c) st em
  | .err (.execError msg _) st em =>
    .err (.execError msg (some node.id)) st (em.nodeFailed node.id msg)

/-- Replaces every node carrying the given id (Python mutates the shared
`Node` object found in `_nodes`; registered graphs have unique ids). -/
def updateNodeList (nodes : List Node) (nodeId : String) (node : Node) : List Node :=
  nodes.map (fun n => if n.id == nodeId then node else n)

/-- The result of one iteration of the `while` loop in
`GraphExecutor.execute`. -/
inductive IterOut where
  | done (st : ExecutionState) (em : Emitter)
  | fail (e : ExecErr) (st : ExecutionState) (em : Emitter)
  | next (nodes : List Node) (cur : String) (st : ExecutionState) (em : Emitter)
deriving Repr, DecidableEq

/-- The forced-failure / forced-interrupt config overrides applied by
`GraphExecutor.execute` before running a node (its lines 143-150). -/
def forcedNode (ex : GraphExecutor) (cur : String) (node : Node) : Node :=
  let node := if ex.failAtNode = some cur then
      { node with config := dSet node.config "should_fail" (.bool true) }
    else node
  if ex.interruptAtNode = some cur then
    { node with type := .human, config := dSet node.config "interrupt" (.bool true) }
  else node

/-- One iteration of `GraphExecutor.execute`'s loop: guard, node lookup,
forced failure/interrupt overrides, node execution, history append,
checkpoint, next-node resolution.  (The inter-node `asyncio.sleep` is
modelled out.) -/
def execIter (ex : GraphExecutor) (nodes : List Node) (cur : String)
    (st : ExecutionState) (em : Emitter) : IterOut :=
  if cur = "" ∨ cur = "__end__" then
    .done { st with currentNode := none } em
  else
    match lookupNode nodes cur with
    | none => .fail (.execError ("Node not found: " ++ cur) none) st em
    | some node =>
      let st := { st with currentNode := some cur }
      let node := forcedNode ex cur node
      let nodes := if ex.failAtNode = some cur ∨ ex.interruptAtNode = some cur then
          updateNodeList nodes cur node
        else nodes
      match executeNode ex node st em with
      | .err e st em => .fail e st em
      | .ok st em =>
        let st := { st with nodesExecuted := st.nodesExecuted ++ [Val.str cur] }
        let r := st.createCheckpoint cur
        let st := r.2
        let em := em.checkpointCreated (.int r.1.checkpointId) cur st.values
        .next nodes (getNextNode ex nodes cur st) st em

/-- The outcome of `GraphExecutor.execute`: normal return, a propagated
exception (with the state and emitter at that point), or fuel
exhaustion (no Python counterpart; every claim is conditioned on not
hitting it). -/
inductive ExecResult where
  | ok (st : ExecutionState) (em : Emitter)
  | err (e : ExecErr) (st : ExecutionState) (em : Emitter)
  | outOfFuel (st : ExecutionState) (em : Emitter)
deriving Repr, DecidableEq

/-- The `while current_node_id and current_node_id != "__end__"` loop of
`GraphExecutor.execute`, with fuel. -/
def execLoop (ex : GraphExecutor) (fuel : Nat) (nodes : List Node) (cur : String)
    (st : ExecutionState) (em : Emitter) : ExecResult :=
  match fuel with
  | 0 => .outOfFuel st em
  | fuel + 1 =>
    match execIter ex nodes cur st em with
    | .done st em => .ok st em
    | .fail e st em => .err e st em
    | .next nodes cur st em => execLoop ex fuel nodes cur st em

/-- State initialisation of `GraphExecutor.execute` (its lines 119-127):
restore from `initial_state` when that is truthy (a non-empty dict),
then merge the input on top. -/
def GraphExecutor.initState (initialState : Option Dict) (inputData : Dict) :
    ExecutionState :=
  let st : ExecutionState := {}
  let st := match initialState with
    | some d =>
      if d.isEmpty then st
      else
        { st with
          values := (dGetD d "values" (.dict [])).asDictD
          messages := (dGetD d "messages" (.list [])).asListD
          nodesExecuted := (dGetD d "nodes_executed" (.list [])).asListD }
    | none => st
  { st with values := dUpdate st.values inputData }

/-- The starting node of an invocation: `resume_from` when truthy, the
entry point otherwise (an empty `resume_from` string is falsy). -/
def startNodeOf (g : Graph) (resumeFrom : Option String) : String :=
  match resumeFrom with
  | some r => if r = "" then g.entryPoint else r
  | none => g.entryPoint

/-- `GraphExecutor.execute`: initialise state, pick the starting node
(`resume_from` when truthy, else the entry point), run the loop. -/
def GraphExecutor.execute (ex : GraphExecutor) (fuel : Nat) (inputData : Dict)
    (initialState : Option Dict) (resumeFrom : Option String) (em : Emitter) : ExecResult :=
  let st := GraphExecutor.initState initialState inputData
  execLoop ex fuel ex.graph.nodes (startNodeOf ex.graph resumeFrom) st em

/-! `config.py` defaults for the fields the executor reads (environment
overrides are out of scope). -/

/-- `config.mock_graph` default. -/
def configMockGraph : String := "simple_echo"

/-- `config.mock_delay_ms` default. -/
def configMockDelayMs : Int := 100

/-- `config.mock_fail_at_node` default. -/
def configMockFailAtNode : Option String := none

/-- `config.mock_interrupt_at_node` default. -/
def configMockInterruptAtNode : Option String := none

/-- `config.mock_token_count` default. -/
def configMockTokenCount : Int := 100

/-- A config value used where the source expects an optional node-id
string (`fail_at` / `interrupt_at`): non-string values never compare
equal to a node id, so they behave as `None`. -/
def valAsOptStr (v : Val) : Option String :=
  match v with
  | .str s => some s
  | _ => none

/-- The outcome of module-level `execute_run`: success, interrupt,
failure (each carrying the emitter as accumulated at that point), the
`ValueError` of `get_graph` (raised before any emitter exists), or
fuel exhaustion. -/
inductive RunOutcome where
  | success (st : ExecutionState) (em : Emitter)
  | interrupted (nodeId : String) (prompt : Val) (requiredFields : Val) (em : Emitter)
  | failed (msg : String) (nodeId : Option String) (em : Emitter)
  | unknownGraph (msg : String)
  | outOfFuel (em : Emitter)
deriving Repr, DecidableEq

/-- `execute_run` (`executor.py`).  Also returns the input dict as left
behind by the `input_data.pop("_mock_config", None)` mutation.  The
run-completed duration is modelled as 0. -/
def executeRun (runId : String) (graphId : String) (inputData : Dict)
    (initialState : Option Dict) (resumeFrom : Option String) (fuel : Nat) :
    RunOutcome × Dict :=
  let mockConfig := dGet? inputData "_mock_config"
  let inputData := dErase inputData "_mock_config"
  let mcTruthy := match mockConfig with
    | some v => v.truthy
    | none => false
  let mc : Dict := match mockConfig with
    | some v => v.asDictD
    | none => []
  let gid := if mcTruthy then Val.pyStr (dGetD mc "graph" (.str graphId)) else graphId
  match getGraph gid with
  | none => (.unknownGraph (unknownGraphMessage gid), inputData)
  | some graph =>
    let em : Emitter := { runId := runId }
    let delayMs := if mcTruthy then dGetIntD mc "delay_ms" configMockDelayMs
      else configMockDelayMs
    let failAt := if mcTruthy then
        (match dGet? mc "fail_at" with
         | some v => valAsOptStr v
         | none => configMockFailAtNode)
      else configMockFailAtNode
    let interruptAt := if mcTruthy then
        (match dGet? mc "interrupt_at" with
         | some v => valAsOptStr v
         | none => configMockInterruptAtNode)
      else configMockInterruptAtNode
    let tokenCount := if mcTruthy then dGetIntD mc "simulate_tokens" configMockTokenCount
      else configMockTokenCount
    let ex : GraphExecutor :=
      { graph := graph, delayMs := delayMs, failAtNode := failAt
        interruptAtNode := interruptAt, tokenCount := tokenCount }
    let em := em.runStarted inputData
    match ex.execute fuel inputData initialState resumeFrom em with
    | .ok st em => (.success st (em.runCompleted st.toDict 0), inputData)
    | .err (.interrupt nodeId prompt fields) _ em =>
      (.interrupted nodeId prompt fields
        (em.runInterrupted nodeId [("prompt", prompt), ("required_fields", fields)]),
       inputData)
    | .err (.execError msg nodeId) _ em =>
      (.failed msg nodeId (em.runFailed msg nodeId), inputData)
    | .outOfFuel _ em => (.outOfFuel em, inputData)

/-! ## `worker.py`: run dispatch (`Worker._execute_run`)

Only the run-dispatch path is embedded (registration, heartbeat and
polling are transport loops).  HTTP calls to the control plane are
modelled as an ordered list of recorded posts; transport failures are
swallowed by the source (`try/except` around every call), so a post
here stands for the attempt.  `active_runs` values keep the
`thread_id`; the `started_at` wall-clock timestamp is modelled out. -/

/-- An association list keyed by Python values (`active_runs` is keyed
by whatever `task.get("run_id")` returned).  Key comparison is `Val`
equality (Python `==`; the bool/int unification corner of Python keys
never arises for run ids). -/
abbrev VDict := List (Val × Val)

/-- Python `d[k] = v` for a `Val`-keyed dict. -/
def vSet (d : VDict) (k : Val) (v : Val) : VDict :=
  match d with
  | [] => [(k, v)]
  | (k', v') :: rest => if k' = k then (k, v) :: rest else (k', v') :: vSet rest k v

/-- Python `del d[k]` aftermath for a `Val`-keyed dict. -/
def vErase (d : VDict) (k : Val) : VDict :=
  d.filter (fun kv => kv.1 ≠ k)

/-- Python `d.get(k)` for a `Val`-keyed dict. -/
def vGet? (d : VDict) (k : Val) : Option Val :=
  match d with
  | [] => none
  | (k', v) :: rest => if k' = k then some v else vGet? rest k

/-- `WorkerState` (`worker.py`), restricted to the fields
`_execute_run` touches. -/
structure WorkerState where
  workerId : String
  status : String := "idle"
  activeRuns : VDict := []
  totalRuns : Nat := 0
  failedRuns : Nat := 0
deriving Repr, DecidableEq

/-- A recorded control-plane post: `_update_run_status`/`_complete_run`
both go to `POST /workers/{id}/events` (`workerEvent`), `_send_events`
goes to `POST /threads/{t}/runs/{r}/events` (`runEvents`). -/
inductive Post where
  | workerEvent (runId : Val) (eventType : String) (data : Dict)
  | runEvents (threadId : Val) (runId : Val) (events : List Event)
deriving Repr, DecidableEq

/-- `Worker._update_run_status`: builds the status-transition payload. -/
def updateRunStatusPost (threadId runId : Val) (status : String)
    (metadata : Option Dict) : Post :=
  let data : Dict := [("status", .str status), ("thread_id", threadId)]
  let data := match metadata with
    | some m => data ++ [("metadata", .dict m)]
    | none => data
  .workerEvent runId ("run_" ++ status) data

/-- `Worker._complete_run`: builds the terminal-outcome payload
(`completed_at` wall-clock stamp modelled out; each optional field is
included when truthy, as in the source's `if output:` etc.). -/
def completeRunPost (threadId runId : Val) (status : String) (output : Option Dict)
    (error : Option String) (errorNode : Option String) (tokens : Option Dict) : Post :=
  let eventType := if status == "success" then "run_completed" else "run_failed"
  let data : Dict := [("status", .str status), ("thread_id", threadId)]
  let data := match output with
    | some o => if o.isEmpty then data else data ++ [("output", .dict o)]
    | none => data
  let data := match error with
    | some e => if e = "" then data else data ++ [("error", .str e)]
    | none => data
  let data := match errorNode with
    | some n => if n = "" then data else data ++ [("error_node", .str n)]
    | none => data
  let data := match tokens with
    | some t => if t.isEmpty then data else data ++ [("tokens", .dict t)]
    | none => data
  .workerEvent runId eventType data

/-- The executor outcome a dispatched run produces, as
`Worker._execute_run` observes it (it re-runs `execute_run` with the
same deterministic arguments). -/
def dispatchOutcome (runData : Dict) (fuel : Nat) : RunOutcome :=
  let runId := dGetD runData "run_id" .null
  let inputData := (dGetD runData "input" (.dict [])).asDictD
  let graphId := match dGetD runData "graph_id" (.str configMockGraph) with
    | .str s => s
    | v => Val.pyStr v
  (executeRun (Val.pyStr runId) graphId inputData none none fuel).1

/-- `Worker._execute_run`: mark the run active, report `in_progress`,
run the executor, report the terminal outcome (events are forwarded
only on success — the emitter is unreachable when `execute_run`
raises), then the `finally` cleanup.  `none` models fuel exhaustion. -/
def workerExecuteRun (w : WorkerState) (runData : Dict) (fuel : Nat) :
    Option (WorkerState × List Post) :=
  let runId := dGetD runData "run_id" .null
  let threadId := dGetD runData "thread_id" .null
  let w := { w with
    activeRuns := vSet w.activeRuns runId (.dict [("thread_id", threadId)])
    status := "running"
    totalRuns := w.totalRuns + 1 }
  let posts : List Post := [updateRunStatusPost threadId runId "in_progress" none]
  let finalize := fun (w : WorkerState) (posts : List Post) =>
    let w := { w with activeRuns := vErase w.activeRuns runId }
    let w := if w.activeRuns.isEmpty then { w with status := "idle" } else w
    some (w, posts)
  match dispatchOutcome runData fuel with
  | .outOfFuel _ => none
  | .success st em =>
    let posts := posts
      ++ [Post.runEvents threadId runId em.events]
      ++ [completeRunPost threadId runId "success" (some st.toDict) none none
            (some em.getTokenSummary)]
    finalize w posts
  | .interrupted nodeId prompt fields _ =>
    let posts := posts
      ++ [updateRunStatusPost threadId runId "interrupted"
            (some [ ("interrupted_at", .str nodeId)
                  , ("prompt", prompt)
                  , ("required_fields", fields) ])]
    finalize w posts
  | .failed msg nodeId _ =>
    let w := { w with failedRuns := w.failedRuns + 1 }
    let posts := posts
      ++ [completeRunPost threadId runId "error" none (some msg) nodeId none]
    finalize w posts
  | .unknownGraph msg =>
    let w := { w with failedRuns := w.failedRuns + 1 }
    let posts := posts
      ++ [completeRunPost threadId runId "error" none (some msg) none none]
    finalize w posts

/-! ## Projections and basic lemmas -/

/-- The execution state carried by a `StepOut`. -/
def stepState : StepOut → ExecutionState
  | .ok st _ => st
  | .err _ st _ => st

/-- The emitter carried by a `StepOut`. -/
def stepEmitter : StepOut → Emitter
  | .ok _ em => em
  | .err _ _ em => em

/-- The execution state carried by an `ExecResult`. -/
def resultState : ExecResult → ExecutionState
  | .ok st _ => st
  | .err _ st _ => st
  | .outOfFuel st _ => st

/-- The emitter carried by an `ExecResult`. -/
def resultEmitter : ExecResult → Emitter
  | .ok _ em => em
  | .err _ _ em => em
  | .outOfFuel _ em => em

/-- The final execution state of a `RunOutcome`, when one exists. -/
def runOutcomeState : RunOutcome → Option ExecutionState
  | .success st _ => some st
  | _ => none

/-- The emitter of a `RunOutcome`, when one exists. -/
def runOutcomeEmitter : RunOutcome → Option Emitter
  | .success _ em => some em
  | .interrupted _ _ _ em => some em
  | .failed _ _ em => some em
  | .unknownGraph _ => none
  | .outOfFuel em => some em

theorem dGet?_dSet_self (d : Dict) (k : String) (v : Val) :
    dGet? (dSet d k v) k = some v := by
  induction d with
  | nil => simp [dSet, dGet?]
  | cons kv rest ih =>
    by_cases h : kv.1 = k
    · simp [dSet, dGet?, h]
    · simp [dSet, dGet?, h, ih]

theorem dGet?_dSet_ne (d : Dict) (k k2 : String) (v : Val) (h : k2 ≠ k) :
    dGet? (dSet d k2 v) k = dGet? d k := by
  induction d with
  | nil => simp [dSet, dGet?, h]
  | cons kv rest ih =>
    by_cases h1 : kv.1 = k2
    · simp [dSet, dGet?, h1, h]
    · simp [dSet, dGet?, h1, ih]

theorem dGet?_dUpdate_of_none (d u : Dict) (k : String) (h : dGet? u k = none) :
    dGet? (dUpdate d u) k = dGet? d k := by
  induction u generalizing d with
  | nil => simp [dUpdate]
  | cons kv rest ih =>
    have hne : kv.1 ≠ k := by
      intro he
      simp [dGet?, he] at h
    have hr : dGet? rest k = none := by
      simpa [dGet?, hne] using h
    have : dUpdate d (kv :: rest) = dUpdate (dSet d kv.1 kv.2) rest := by
      simp [dUpdate]
    rw [this, ih _ hr, dGet?_dSet_ne _ _ _ _ hne]

theorem dGet?_eq_none_of_not_mem (d : Dict) (k : String)
    (h : k ∉ d.map Prod.fst) : dGet? d k = none := by
  induction d with
  | nil => simp [dGet?]
  | cons kv rest ih =>
    have h1 : kv.1 ≠ k := by
      intro hh
      exact h (by simp [hh])
    have h2 : k ∉ rest.map Prod.fst := fun hh => h (by simp [hh])
    simp [dGet?, h1, ih h2]

theorem dGet?_dUpdate_of_some (d u : Dict) (k : String) (v : Val)
    (hnd : (u.map Prod.fst).Nodup) (h : dGet? u k = some v) :
    dGet? (dUpdate d u) k = some v := by
  induction u generalizing d with
  | nil => simp [dGet?] at h
  | cons kv rest ih =>
    rw [List.map_cons, List.nodup_cons] at hnd
    have hstep : dUpdate d (kv :: rest) = dUpdate (dSet d kv.1 kv.2) rest := by
      simp [dUpdate]
    by_cases he : kv.1 = k
    · have hv : kv.2 = v := by
        simpa [dGet?, he] using h
      have hni : k ∉ rest.map Prod.fst := he ▸ hnd.1
      have hknone : dGet? rest k = none := dGet?_eq_none_of_not_mem rest k hni
      rw [hstep, dGet?_dUpdate_of_none _ _ _ hknone, ← hv, ← he]
      exact dGet?_dSet_self d kv.1 kv.2
    · have hr : dGet? rest k = some v := by
        simpa [dGet?, he] using h
      rw [hstep, ih _ hnd.2 hr]

theorem dGet?_dErase_self (d : Dict) (k : String) :
    dGet? (dErase d k) k = none := by
  induction d with
  | nil => simp [dErase, dGet?]
  | cons kv rest ih =>
    by_cases h : kv.1 = k
    · simpa [dErase, h] using ih
    · simpa [dErase, dGet?, h] using ih

theorem dGet?_dErase_ne (d : Dict) (k k2 : String) (h : k ≠ k2) :
    dGet? (dErase d k2) k = dGet? d k := by
  induction d with
  | nil => simp [dErase]
  | cons kv rest ih =>
    by_cases h1 : kv.1 = k2
    · have hne : kv.1 ≠ k := fun hh => h (hh ▸ h1)
      have hd : dErase (kv :: rest) k2 = dErase rest k2 := by
        simp [dErase, h1]
      rw [hd, ih]
      simp [dGet?, hne]
    · have hd : dErase (kv :: rest) k2 = kv :: dErase rest k2 := by
        simp [dErase, h1]
      rw [hd]
      by_cases h2 : kv.1 = k
      · simp [dGet?, h2]
      · simp [dGet?, h2, ih]

/-- Events the executor's node machinery may emit: everything except the
four run-level event types, which only `execute_run` emits. -/
def isRunLevel (e : Event) : Bool :=
  match e.type with
  | .runStarted => true
  | .runCompleted => true
  | .runFailed => true
  | .runInterrupted => true
  | _ => false

/-- One emitter extends another when it appends only node-level events
(and belongs to the same run). -/
def emExtends (em em2 : Emitter) : Prop :=
  em2.runId = em.runId ∧
  ∃ l, em2.events = em.events ++ l ∧ ∀ e ∈ l, isRunLevel e = false

theorem emExtends_refl (em : Emitter) : emExtends em em :=
  ⟨rfl, [], by simp, by simp⟩

theorem emExtends_trans {em1 em2 em3 : Emitter} (h1 : emExtends em1 em2)
    (h2 : emExtends em2 em3) : emExtends em1 em3 := by
  obtain ⟨hr1, l1, he1, ha1⟩ := h1
  obtain ⟨hr2, l2, he2, ha2⟩ := h2
  refine ⟨hr2.trans hr1, l1 ++ l2, ?_, ?_⟩
  · rw [he2, he1, List.append_assoc]
  · intro e he
    rcases List.mem_append.mp he with h | h
    · exact ha1 e h
    · exact ha2 e h

theorem emExtends_emit {em : Emitter} {e : Event} (h : isRunLevel e = false) :
    emExtends em (em.emit e) :=
  ⟨rfl, [e], by simp [Emitter.emit], by simpa⟩

theorem emExtends_nodeStarted (em : Emitter) (nodeId nodeType : String) (inputData : Dict) :
    emExtends em (em.nodeStarted nodeId nodeType inputData) :=
  emExtends_emit rfl

theorem emExtends_nodeCompleted (em : Emitter) (nodeId : String) (output : Dict)
    (durationMs : Int) : emExtends em (em.nodeCompleted nodeId output durationMs) :=
  emExtends_emit rfl

theorem emExtends_nodeFailed (em : Emitter) (nodeId error : String) :
    emExtends em (em.nodeFailed nodeId error) :=
  emExtends_emit rfl

theorem emExtends_llmStart (em : Emitter) (nodeId : String) (model : Val) (prompt : String) :
    emExtends em (em.llmStart nodeId model prompt) :=
  emExtends_emit rfl

theorem emExtends_llmEnd (em : Emitter) (nodeId : String) (model : Val) (response : String)
    (ti tou d : Int) : emExtends em (em.llmEnd nodeId model response ti tou d) :=
  emExtends_emit rfl

theorem emExtends_toolStart (em : Emitter) (nodeId : String) (toolName : Val)
    (arguments : Dict) : emExtends em (em.toolStart nodeId toolName arguments) :=
  emExtends_emit rfl

theorem emExtends_toolEnd (em : Emitter) (nodeId : String) (toolName : Val) (result : Val)
    (durationMs : Int) : emExtends em (em.toolEnd nodeId toolName result durationMs) :=
  emExtends_emit rfl

theorem emExtends_checkpointCreated (em : Emitter) (checkpointId : Val) (nodeId : String)
    (state : Dict) : emExtends em (em.checkpointCreated checkpointId nodeId state) :=
  emExtends_emit rfl

/-! ### Node-step invariants: the node bodies touch only `values` and
`messages`, never the checkpoint list or the execution history, and
emit only node-level events. -/

theorem executeLLMNode_checkpoints (ex : GraphExecutor) (node : Node)
    (st : ExecutionState) (em : Emitter) :
    (stepState (executeLLMNode ex node st em)).checkpoints = st.checkpoints := by
  simp only [executeLLMNode]
  repeat' split
  all_goals rfl

theorem executeLLMNode_nodesExecuted (ex : GraphExecutor) (node : Node)
    (st : ExecutionState) (em : Emitter) :
    (stepState (executeLLMNode ex node st em)).nodesExecuted = st.nodesExecuted := by
  simp only [executeLLMNode]
  repeat' split
  all_goals rfl

theorem executeLLMNode_emitter (ex : GraphExecutor) (node : Node)
    (st : ExecutionState) (em : Emitter) :
    emExtends em (stepEmitter (executeLLMNode ex node st em)) := by
  simp only [executeLLMNode]
  repeat' split
  all_goals first
  | exact emExtends_refl em
  | exact emExtends_trans (emExtends_llmStart _ _ _ _) (emExtends_llmEnd _ _ _ _ _ _ _)

theorem executeLLMNode_err (ex : GraphExecutor) (node : Node) (st : ExecutionState)
    (em : Emitter) (e : ExecErr) (st2 : ExecutionState) (em2 : Emitter)
    (h : executeLLMNode ex node st em = .err e st2 em2) :
    e = .execError (Val.pyStr (dGetD node.config "error_message"
      (.str "Simulated LLM failure"))) (some node.id) ∧ st2 = st ∧ em2 = em := by
  simp only [executeLLMNode] at h
  revert h
  repeat' split
  all_goals intro h
  all_goals cases h
  exact ⟨rfl, rfl, rfl⟩

theorem toolFold_emitter (node : Node) (tools : Dict) (st : ExecutionState) :
    ∀ (calls : List Val) (acc : List Val × Emitter),
      emExtends acc.2 ((calls.foldl (executeToolCall node tools st) acc).2) := by
  intro calls
  induction calls with
  | nil => intro acc; exact emExtends_refl _
  | cons c rest ih =>
    intro acc
    have hstep : emExtends acc.2 ((executeToolCall node tools st acc c).2) := by
      unfold executeToolCall
      exact emExtends_trans (emExtends_toolStart _ _ _ _) (emExtends_toolEnd _ _ _ _ _)
    exact emExtends_trans hstep (by simpa using ih (executeToolCall node tools st acc c))

theorem executeToolNode_checkpoints (node : Node) (st : ExecutionState) (em : Emitter) :
    (executeToolNode node st em).1.checkpoints = st.checkpoints := by
  simp [executeToolNode, ExecutionState.update]

theorem executeToolNode_nodesExecuted (node : Node) (st : ExecutionState) (em : Emitter) :
    (executeToolNode node st em).1.nodesExecuted = st.nodesExecuted := by
  simp [executeToolNode, ExecutionState.update]

theorem executeToolNode_emitter (node : Node) (st : ExecutionState) (em : Emitter) :
    emExtends em (executeToolNode node st em).2 := by
  unfold executeToolNode
  exact toolFold_emitter node _ st _ ([], em)

theorem executeHumanNode_ok (node : Node) (st st2 : ExecutionState)
    (h : executeHumanNode node st = .ok st2) :
    st2.checkpoints = st.checkpoints ∧ st2.nodesExecuted = st.nodesExecuted := by
  simp only [executeHumanNode] at h
  revert h
  repeat' split
  all_goals intro h
  all_goals cases h
  all_goals exact ⟨rfl, rfl⟩

theorem executeNode_spec (ex : GraphExecutor) (node : Node) (st : ExecutionState)
    (em : Emitter) :
    (stepState (executeNode ex node st em)).checkpoints = st.checkpoints ∧
    (stepState (executeNode ex node st em)).nodesExecuted = st.nodesExecuted ∧
    emExtends em (stepEmitter (executeNode ex node st em)) := by
  simp only [executeNode]
  have hem0 : emExtends em (em.nodeStarted node.id node.type.toStr
      [("state_keys", .list ((dKeys st.values).map .str))]) :=
    emExtends_nodeStarted _ _ _ _
  set em1 := em.nodeStarted node.id node.type.toStr
    [("state_keys", .list ((dKeys st.values).map .str))] with hem1def
  cases htype : node.type
  case start =>
    exact ⟨rfl, rfl, emExtends_trans hem0 (emExtends_nodeCompleted _ _ _ _)⟩
  case endNode =>
    exact ⟨rfl, rfl, emExtends_trans hem0 (emExtends_nodeCompleted _ _ _ _)⟩
  case router =>
    exact ⟨rfl, rfl, emExtends_trans hem0 (emExtends_nodeCompleted _ _ _ _)⟩
  case llm =>
    have h1 := executeLLMNode_checkpoints ex node st em1
    have h2 := executeLLMNode_nodesExecuted ex node st em1
    have h3 := executeLLMNode_emitter ex node st em1
    rcases hr : executeLLMNode ex node st em1 with ⟨st2, em2⟩ | ⟨e, st2, em2⟩
    · rw [hr] at h1 h2 h3
      simp only [stepState, stepEmitter] at h1 h2 h3
      simp only [hr, stepState, stepEmitter]
      exact ⟨h1, h2, emExtends_trans hem0
        (emExtends_trans h3 (emExtends_nodeCompleted _ _ _ _))⟩
    · obtain ⟨he, hst, hemq⟩ := executeLLMNode_err ex node st em1 e st2 em2 hr
      subst he hst hemq
      simp only [hr, stepState, stepEmitter]
      exact ⟨by trivial, by trivial, emExtends_trans hem0 (emExtends_nodeFailed _ _ _)⟩
  case tool =>
    have h1 := executeToolNode_checkpoints node st em1
    have h2 := executeToolNode_nodesExecuted node st em1
    have h3 := executeToolNode_emitter node st em1
    simp only [stepState, stepEmitter]
    exact ⟨h1, h2, emExtends_trans hem0
      (emExtends_trans h3 (emExtends_nodeCompleted _ _ _ _))⟩
  case human =>
    rcases hr : executeHumanNode node st with e | st2
    · cases e with
      | interrupt a b c =>
        simp only [hr, stepState, stepEmitter]
        exact ⟨by trivial, by trivial, hem0⟩
      | execError m n =>
        simp only [hr, stepState, stepEmitter]
        exact ⟨by trivial, by trivial, emExtends_trans hem0 (emExtends_nodeFailed _ _ _)⟩
    · obtain ⟨h1, h2⟩ := executeHumanNode_ok node st st2 hr
      simp only [hr, stepState, stepEmitter]
      exact ⟨h1, h2, emExtends_trans hem0 (emExtends_nodeCompleted _ _ _ _)⟩

theorem executeNode_err_execError (ex : GraphExecutor) (node : Node) (st : ExecutionState)
    (em : Emitter) (msg : String) (nid : Option String) (st2 : ExecutionState) (em2 : Emitter)
    (h : executeNode ex node st em = .err (.execError msg nid) st2 em2) :
    nid = some node.id := by
  simp only [executeNode] at h
  set em1 := em.nodeStarted node.id node.type.toStr
    [("state_keys", .list ((dKeys st.values).map .str))] with hem1def
  revert h
  cases node.type
  case start => intro h; cases h
  case endNode => intro h; cases h
  case router => intro h; cases h
  case llm =>
    rcases hr : executeLLMNode ex node st em1 with ⟨st3, em3⟩ | ⟨e, st3, em3⟩
    · simp only [hr]
      intro h
      cases h
    · simp only [hr]
      cases e with
      | interrupt a b c => intro h; cases h
      | execError m n => intro h; cases h; rfl
  case tool => intro h; cases h
  case human =>
    rcases hr : executeHumanNode node st with e | st3
    · simp only [hr]
      cases e with
      | interrupt a b c => intro h; cases h
      | execError m n => intro h; cases h; rfl
    · simp only [hr]
      intro h
      cases h

/-! ### Loop-iteration invariants -/

theorem execIter_done_spec (ex : GraphExecutor) (nodes : List Node) (cur : String)
    (st : ExecutionState) (em : Emitter) (st2 : ExecutionState) (em2 : Emitter)
    (h : execIter ex nodes cur st em = .done st2 em2) :
    st2 = { st with currentNode := none } ∧ em2 = em ∧ (cur = "" ∨ cur = "__end__") := by
  simp only [execIter] at h
  split at h
  · cases h
    exact ⟨rfl, rfl, by assumption⟩
  · split at h
    · cases h
    · split at h
      · cases h
      · cases h

theorem execIter_fail_spec (ex : GraphExecutor) (nodes : List Node) (cur : String)
    (st : ExecutionState) (em : Emitter) (e : ExecErr) (st2 : ExecutionState) (em2 : Emitter)
    (h : execIter ex nodes cur st em = .fail e st2 em2) :
    st2.checkpoints = st.checkpoints ∧ st2.nodesExecuted = st.nodesExecuted ∧
    emExtends em em2 ∧
    (e = .execError ("Node not found: " ++ cur) none ∨
      (∃ m n, e = .execError m (some n)) ∨
      (∃ a b c, e = .interrupt a b c)) := by
  simp only [execIter] at h
  split at h
  · cases h
  · split at h
    · cases h
      exact ⟨rfl, rfl, emExtends_refl em, .inl rfl⟩
    · split at h
      · -- executeNode raised
        cases h
        rename_i nd hlk sox heq
        have hspec := executeNode_spec ex (forcedNode ex cur nd)
          { st with currentNode := some cur } em
        rw [heq] at hspec
        simp only [stepState, stepEmitter] at hspec
        refine ⟨hspec.1, hspec.2.1, hspec.2.2, ?_⟩
        cases e with
        | interrupt a b c => exact .inr (.inr ⟨a, b, c, rfl⟩)
        | execError m n =>
          right
          left
          refine ⟨m, ?_⟩
          have := executeNode_err_execError _ _ _ _ _ _ _ _ heq
          exact ⟨_, by rw [this]⟩
      · cases h

theorem execIter_next_spec (ex : GraphExecutor) (nodes : List Node) (cur : String)
    (st : ExecutionState) (em : Emitter) (nodes2 : List Node) (cur2 : String)
    (st2 : ExecutionState) (em2 : Emitter)
    (h : execIter ex nodes cur st em = .next nodes2 cur2 st2 em2) :
    (∃ cp, st2.checkpoints = st.checkpoints ++ [cp] ∧ cp.nodeId = cur) ∧
    st2.nodesExecuted = st.nodesExecuted ++ [Val.str cur] ∧
    emExtends em em2 ∧
    cur ≠ "" ∧ cur ≠ "__end__" ∧
    cur2 = getNextNode ex nodes2 cur st2 ∧
    (∃ node, lookupNode nodes cur = some node) ∧
    (ex.failAtNode ≠ some cur ∧ ex.interruptAtNode ≠ some cur → nodes2 = nodes) := by
  simp only [execIter] at h
  split at h
  · cases h
  · rename_i hguard
    push_neg at hguard
    split at h
    · cases h
    · split at h
      · cases h
      · -- successful step
        cases h
        rename_i nd hlk sox stq emq heq
        have hspec := executeNode_spec ex (forcedNode ex cur nd)
          { st with currentNode := some cur } em
        rw [heq] at hspec
        simp only [stepState, stepEmitter] at hspec
        refine ⟨⟨{ checkpointId := stq.checkpoints.length, nodeId := cur,
                   values := stq.values, messages := stq.messages,
                   nodesExecuted := stq.nodesExecuted ++ [Val.str cur] },
                 ?_, rfl⟩, ?_, ?_, hguard.1, hguard.2, rfl, ⟨nd, hlk⟩, ?_⟩
        · simp [ExecutionState.createCheckpoint, hspec.1]
        · simp [ExecutionState.createCheckpoint, hspec.2.1]
        · exact emExtends_trans hspec.2.2 (emExtends_checkpointCreated _ _ _ _)
        · intro hforce
          have : ¬ (ex.failAtNode = some cur ∨ ex.interruptAtNode = some cur) := by
            rintro (hc | hc)
            · exact hforce.1 hc
            · exact hforce.2 hc
          simp [this]

/-! ### Whole-loop invariants (induction on fuel) -/

theorem execLoop_checkpoints (ex : GraphExecutor) (fuel : Nat) :
    ∀ (nodes : List Node) (cur : String) (st : ExecutionState) (em : Emitter),
    ∃ tail, (resultState (execLoop ex fuel nodes cur st em)).checkpoints
      = st.checkpoints ++ tail := by
  induction fuel with
  | zero =>
    intro nodes cur st em
    exact ⟨[], by simp [execLoop, resultState]⟩
  | succ fuel ih =>
    intro nodes cur st em
    rcases hi : execIter ex nodes cur st em with ⟨st2, em2⟩ | ⟨e, st2, em2⟩
      | ⟨nodes2, cur2, st2, em2⟩
    · obtain ⟨hst, _, _⟩ := execIter_done_spec ex nodes cur st em st2 em2 hi
      subst hst
      exact ⟨[], by simp [execLoop, hi, resultState]⟩
    · obtain ⟨hck, _, _, _⟩ := execIter_fail_spec ex nodes cur st em e st2 em2 hi
      exact ⟨[], by simp [execLoop, hi, resultState, hck]⟩
    · obtain ⟨⟨cp, hck, _⟩, _, _, _, _, _, _, _⟩ :=
        execIter_next_spec ex nodes cur st em nodes2 cur2 st2 em2 hi
      obtain ⟨tail, htail⟩ := ih nodes2 cur2 st2 em2
      refine ⟨[cp] ++ tail, ?_⟩
      simp only [execLoop, hi]
      rw [htail, hck, List.append_assoc]

theorem execLoop_emitter (ex : GraphExecutor) (fuel : Nat) :
    ∀ (nodes : List Node) (cur : String) (st : ExecutionState) (em : Emitter),
    emExtends em (resultEmitter (execLoop ex fuel nodes cur st em)) := by
  induction fuel with
  | zero =>
    intro nodes cur st em
    exact emExtends_refl em
  | succ fuel ih =>
    intro nodes cur st em
    rcases hi : execIter ex nodes cur st em with ⟨st2, em2⟩ | ⟨e, st2, em2⟩
      | ⟨nodes2, cur2, st2, em2⟩
    · obtain ⟨_, hem, _⟩ := execIter_done_spec ex nodes cur st em st2 em2 hi
      subst hem
      simp [execLoop, hi, resultEmitter, emExtends_refl]
    · obtain ⟨_, _, hem, _⟩ := execIter_fail_spec ex nodes cur st em e st2 em2 hi
      simpa [execLoop, hi, resultEmitter] using hem
    · obtain ⟨_, _, hem, _, _, _, _, _⟩ :=
        execIter_next_spec ex nodes cur st em nodes2 cur2 st2 em2 hi
      have := ih nodes2 cur2 st2 em2
      simp only [execLoop, hi]
      exact emExtends_trans hem this

theorem execLoop_pairing (ex : GraphExecutor) (fuel : Nat) :
    ∀ (nodes : List Node) (cur : String) (st : ExecutionState) (em : Emitter),
    st.checkpoints.map (fun c => Val.str c.nodeId) = st.nodesExecuted →
    (resultState (execLoop ex fuel nodes cur st em)).checkpoints.map
        (fun c => Val.str c.nodeId)
      = (resultState (execLoop ex fuel nodes cur st em)).nodesExecuted := by
  induction fuel with
  | zero =>
    intro nodes cur st em hp
    simpa [execLoop, resultState] using hp
  | succ fuel ih =>
    intro nodes cur st em hp
    rcases hi : execIter ex nodes cur st em with ⟨st2, em2⟩ | ⟨e, st2, em2⟩
      | ⟨nodes2, cur2, st2, em2⟩
    · obtain ⟨hst, _, _⟩ := execIter_done_spec ex nodes cur st em st2 em2 hi
      subst hst
      simpa [execLoop, hi, resultState] using hp
    · obtain ⟨hck, hne, _, _⟩ := execIter_fail_spec ex nodes cur st em e st2 em2 hi
      simpa [execLoop, hi, resultState, hck, hne] using hp
    · obtain ⟨⟨cp, hck, hcp⟩, hne, _, _, _, _, _, _⟩ :=
        execIter_next_spec ex nodes cur st em nodes2 cur2 st2 em2 hi
      have hp2 : st2.checkpoints.map (fun c => Val.str c.nodeId) = st2.nodesExecuted := by
        rw [hck, hne, List.map_append, hp]
        simp [hcp]
      simpa [execLoop, hi] using ih nodes2 cur2 st2 em2 hp2

theorem execLoop_err_none (ex : GraphExecutor) (fuel : Nat) :
    ∀ (nodes : List Node) (cur : String) (st : ExecutionState) (em : Emitter)
      (msg : String) (st2 : ExecutionState) (em2 : Emitter),
    execLoop ex fuel nodes cur st em = .err (.execError msg none) st2 em2 →
    ∃ bad, msg = "Node not found: " ++ bad := by
  induction fuel with
  | zero =>
    intro nodes cur st em msg st2 em2 h
    simp [execLoop] at h
  | succ fuel ih =>
    intro nodes cur st em msg st2 em2 h
    rcases hi : execIter ex nodes cur st em with ⟨st3, em3⟩ | ⟨e, st3, em3⟩
      | ⟨nodes3, cur3, st3, em3⟩
    · simp [execLoop, hi] at h
    · simp only [execLoop, hi] at h
      cases h
      obtain ⟨_, _, _, hshape⟩ := execIter_fail_spec ex nodes cur st em _ st2 em2 hi
      rcases hshape with hs | ⟨m, n, hs⟩ | ⟨a, b, c, hs⟩
      · cases hs
        exact ⟨cur, rfl⟩
      · cases hs
      · cases hs
    · simp only [execLoop, hi] at h
      exact ih nodes3 cur3 st3 em3 msg st2 em2 h

/-! ### Realized-path typing: which node ids the loop can visit -/

theorem lookupNode_spec (nodes : List Node) (nodeId : String) (n : Node)
    (h : lookupNode nodes nodeId = some n) : n ∈ nodes ∧ n.id = nodeId := by
  unfold lookupNode at h
  have hm := List.mem_of_find?_eq_some h
  have hp := List.find?_some h
  exact ⟨List.mem_reverse.mp hm, by simpa using hp⟩

theorem condNext_mem (st : ExecutionState) (edges : List Edge) (t : String)
    (h : condNext st edges = some t) : t ∈ edges.map (fun e => e.target) := by
  induction edges with
  | nil => simp [condNext] at h
  | cons e rest ih =>
    simp only [condNext] at h
    revert h
    split
    · split
      · intro h
        cases h
        simp
      · intro h
        have := ih h
        simp [this]
    · intro h
      cases h
      simp

theorem dGet?_mem_values (d : Dict) (k : String) (v : Val)
    (h : dGet? d k = some v) : v ∈ d.map Prod.snd := by
  induction d with
  | nil => simp [dGet?] at h
  | cons kv rest ih =>
    simp only [dGet?] at h
    revert h
    split
    · intro h
      cases h
      simp
    · intro h
      have := ih h
      simp [this]

/-- The ids of start-typed nodes of a graph. -/
def startIds (g : Graph) : List String :=
  (g.nodes.filter (fun n => n.type == NodeType.start)).map (fun n => n.id)

/-- Every node id a router node's config can produce in
`_get_next_node`. -/
def routerTargets (n : Node) : List String :=
  (((dGetD n.config "routes" (.dict [])).asDictD).map (fun kv => valAsNodeId kv.2))
    ++ (match dGet? n.config "default" with
        | some v => [valAsNodeId v]
        | none => [])

/-- A superset of the node ids `_get_next_node` can return from `id`. -/
def nextCandidates (g : Graph) (id : String) : List String :=
  "__end__" :: ((outgoing g id).map (fun e => e.target))
    ++ (match lookupNode g.nodes id with
        | some n => if n.type == NodeType.router then routerTargets n else []
        | none => [])

/-- Sanity conditions on a graph under which the executor's realized
path never visits a start-typed node and end-typed nodes only occur as
the `__end__` sentinel (all registered graphs satisfy this). -/
def pathOk (g : Graph) : Bool :=
  (!(startIds g).contains g.entryPoint)
    && (!(startIds g).contains "__end__")
    && (g.nodes.all (fun n => !(n.type == NodeType.endNode) || n.id == "__end__"))
    && (g.nodes.all (fun n =>
          (nextCandidates g n.id).all (fun t => !(startIds g).contains t)))

theorem dGet?_pair_mem (d : Dict) (k : String) (v : Val)
    (h : dGet? d k = some v) : (k, v) ∈ d := by
  induction d with
  | nil => simp [dGet?] at h
  | cons kv rest ih =>
    simp only [dGet?] at h
    revert h
    split
    · rename_i hk
      intro h
      cases h
      rw [← hk]
      exact List.mem_cons_self kv rest
    · intro h
      exact List.mem_cons_of_mem _ (ih h)

theorem mem_nextCandidates_edge (g : Graph) (id t : String)
    (h : t ∈ (outgoing g id).map (fun e => e.target)) : t ∈ nextCandidates g id := by
  unfold nextCandidates
  exact List.mem_cons_of_mem _ (List.mem_append_left _ h)

theorem mem_nextCandidates_router (g : Graph) (id t : String) (n : Node)
    (hl : lookupNode g.nodes id = some n) (hr : n.type = NodeType.router)
    (h : t ∈ routerTargets n) : t ∈ nextCandidates g id := by
  unfold nextCandidates
  have hb : (n.type == NodeType.router) = true := by simp [hr]
  simp only [hl, hb, if_true]
  exact List.mem_cons_of_mem _ (List.mem_append_right _ h)

theorem mem_routerTargets_default (n : Node) (v : Val)
    (hd : dGet? n.config "default" = some v) : valAsNodeId v ∈ routerTargets n := by
  unfold routerTargets
  rw [hd]
  exact List.mem_append_right _ (by simp)

theorem mem_routerTargets_route (n : Node) (s : String) (target : Val)
    (hroute : dGet? ((dGetD n.config "routes" (.dict [])).asDictD) s = some target) :
    valAsNodeId target ∈ routerTargets n := by
  unfold routerTargets
  refine List.mem_append_left _ ?_
  exact List.mem_map_of_mem (fun kv => valAsNodeId kv.2) (dGet?_pair_mem _ _ _ hroute)

theorem getNextNode_mem (ex : GraphExecutor) (cur : String) (st : ExecutionState) :
    getNextNode ex ex.graph.nodes cur st ∈ nextCandidates ex.graph cur := by
  rcases houtg : outgoing ex.graph cur with _ | ⟨e0, rest⟩
  · have hgn : getNextNode ex ex.graph.nodes cur st = "__end__" := by
      simp [getNextNode, houtg]
    rw [hgn]
    exact List.mem_cons_self _ _
  · have he0 : e0.target ∈ (outgoing ex.graph cur).map (fun e => e.target) := by
      rw [houtg]
      simp
    rcases hlook : lookupNode ex.graph.nodes cur with _ | n
    · rcases hcn : condNext st (e0 :: rest) with _ | t
      · have hgn : getNextNode ex ex.graph.nodes cur st = e0.target := by
          simp [getNextNode, houtg, hlook, hcn]
        rw [hgn]
        exact mem_nextCandidates_edge _ _ _ he0
      · have hgn : getNextNode ex ex.graph.nodes cur st = t := by
          simp [getNextNode, houtg, hlook, hcn]
        rw [hgn]
        refine mem_nextCandidates_edge _ _ _ ?_
        rw [houtg]
        exact condNext_mem st (e0 :: rest) t hcn
    · by_cases hr : n.type = NodeType.router
      · rcases hrv : st.get (Val.pyStr (dGetD n.config "route_key" (.str "route"))) .null
          with _ | b | i | sv | xs | kvs
        · rcases hd : dGet? n.config "default" with _ | v
          · have heq : dGetD n.config "default" (.str e0.target) = .str e0.target := by
              simp [dGetD, hd]
            have hgn : getNextNode ex ex.graph.nodes cur st = e0.target := by
              simp [getNextNode, houtg, hlook, hr, hrv, heq, valAsNodeId]
            rw [hgn]
            exact mem_nextCandidates_edge _ _ _ he0
          · have heq : dGetD n.config "default" (.str e0.target) = v := by
              simp [dGetD, hd]
            have hgn : getNextNode ex ex.graph.nodes cur st = valAsNodeId v := by
              simp [getNextNode, houtg, hlook, hr, hrv, heq]
            rw [hgn]
            exact mem_nextCandidates_router _ _ _ n hlook hr
              (mem_routerTargets_default n v hd)
        · rcases hd : dGet? n.config "default" with _ | v
          · have heq : dGetD n.config "default" (.str e0.target) = .str e0.target := by
              simp [dGetD, hd]
            have hgn : getNextNode ex ex.graph.nodes cur st = e0.target := by
              simp [getNextNode, houtg, hlook, hr, hrv, heq, valAsNodeId]
            rw [hgn]
            exact mem_nextCandidates_edge _ _ _ he0
          · have heq : dGetD n.config "default" (.str e0.target) = v := by
              simp [dGetD, hd]
            have hgn : getNextNode ex ex.graph.nodes cur st = valAsNodeId v := by
              simp [getNextNode, houtg, hlook, hr, hrv, heq]
            rw [hgn]
            exact mem_nextCandidates_router _ _ _ n hlook hr
              (mem_routerTargets_default n v hd)
        · rcases hd : dGet? n.config "default" with _ | v
          · have heq : dGetD n.config "default" (.str e0.target) = .str e0.target := by
              simp [dGetD, hd]
            have hgn : getNextNode ex ex.graph.nodes cur st = e0.target := by
              simp [getNextNode, houtg, hlook, hr, hrv, heq, valAsNodeId]
            rw [hgn]
            exact mem_nextCandidates_edge _ _ _ he0
          · have heq : dGetD n.config "default" (.str e0.target) = v := by
              simp [dGetD, hd]
            have hgn : getNextNode ex ex.graph.nodes cur st = valAsNodeId v := by
              simp [getNextNode, houtg, hlook, hr, hrv, heq]
            rw [hgn]
            exact mem_nextCandidates_router _ _ _ n hlook hr
              (mem_routerTargets_default n v hd)
        · rcases hroute : dGet? ((dGetD n.config "routes" (.dict [])).asDictD) sv
            with _ | target
          · rcases hd : dGet? n.config "default" with _ | v
            · have heq : dGetD n.config "default" (.str e0.target) = .str e0.target := by
                simp [dGetD, hd]
              have hgn : getNextNode ex ex.graph.nodes cur st = e0.target := by
                simp [getNextNode, houtg, hlook, hr, hrv, hroute, heq, valAsNodeId]
              rw [hgn]
              exact mem_nextCandidates_edge _ _ _ he0
            · have heq : dGetD n.config "default" (.str e0.target) = v := by
                simp [dGetD, hd]
              have hgn : getNextNode ex ex.graph.nodes cur st = valAsNodeId v := by
                simp [getNextNode, houtg, hlook, hr, hrv, hroute, heq]
              rw [hgn]
              exact mem_nextCandidates_router _ _ _ n hlook hr
                (mem_routerTargets_default n v hd)
          · have hgn : getNextNode ex ex.graph.nodes cur st = valAsNodeId target := by
              simp [getNextNode, houtg, hlook, hr, hrv, hroute]
            rw [hgn]
            exact mem_nextCandidates_router _ _ _ n hlook hr
              (mem_routerTargets_route n sv target hroute)
        · rcases hd : dGet? n.config "default" with _ | v
          · have heq : dGetD n.config "default" (.str e0.target) = .str e0.target := by
              simp [dGetD, hd]
            have hgn : getNextNode ex ex.graph.nodes cur st = e0.target := by
              simp [getNextNode, houtg, hlook, hr, hrv, heq, valAsNodeId]
            rw [hgn]
            exact mem_nextCandidates_edge _ _ _ he0
          · have heq : dGetD n.config "default" (.str e0.target) = v := by
              simp [dGetD, hd]
            have hgn : getNextNode ex ex.graph.nodes cur st = valAsNodeId v := by
              simp [getNextNode, houtg, hlook, hr, hrv, heq]
            rw [hgn]
            exact mem_nextCandidates_router _ _ _ n hlook hr
              (mem_routerTargets_default n v hd)
        · rcases hd : dGet? n.config "default" with _ | v
          · have heq : dGetD n.config "default" (.str e0.target) = .str e0.target := by
              simp [dGetD, hd]
            have hgn : getNextNode ex ex.graph.nodes cur st = e0.target := by
              simp [getNextNode, houtg, hlook, hr, hrv, heq, valAsNodeId]
            rw [hgn]
            exact mem_nextCandidates_edge _ _ _ he0
          · have heq : dGetD n.config "default" (.str e0.target) = v := by
              simp [dGetD, hd]
            have hgn : getNextNode ex ex.graph.nodes cur st = valAsNodeId v := by
              simp [getNextNode, houtg, hlook, hr, hrv, heq]
            rw [hgn]
            exact mem_nextCandidates_router _ _ _ n hlook hr
              (mem_routerTargets_default n v hd)
      · rcases hcn : condNext st (e0 :: rest) with _ | t
        · have hgn : getNextNode ex ex.graph.nodes cur st = e0.target := by
            simp [getNextNode, houtg, hlook, hr, hcn]
          rw [hgn]
          exact mem_nextCandidates_edge _ _ _ he0
        · have hgn : getNextNode ex ex.graph.nodes cur st = t := by
            simp [getNextNode, houtg, hlook, hr, hcn]
          rw [hgn]
          refine mem_nextCandidates_edge _ _ _ ?_
          rw [houtg]
          exact condNext_mem st (e0 :: rest) t hcn

/-- An executed-history entry is the id of a non-start, non-end node of
the graph. -/
def execNodeOk (g : Graph) (v : Val) : Prop :=
  ∃ id n, v = Val.str id ∧ lookupNode g.nodes id = some n ∧
    n.type ≠ NodeType.start ∧ n.type ≠ NodeType.endNode

theorem not_start_of_not_mem_startIds (g : Graph) (id : String) (n : Node)
    (hl : lookupNode g.nodes id = some n) (h : id ∉ startIds g) :
    n.type ≠ NodeType.start := by
  intro ht
  obtain ⟨hmem, hid⟩ := lookupNode_spec _ _ _ hl
  apply h
  unfold startIds
  refine List.mem_map.mpr ⟨n, List.mem_filter.mpr ⟨hmem, by simp [ht]⟩, hid⟩

theorem pathOk_parts (g : Graph) (hok : pathOk g = true) :
    g.entryPoint ∉ startIds g ∧
    "__end__" ∉ startIds g ∧
    (∀ n ∈ g.nodes, n.type = NodeType.endNode → n.id = "__end__") ∧
    (∀ n ∈ g.nodes, ∀ t ∈ nextCandidates g n.id, t ∉ startIds g) := by
  unfold pathOk at hok
  simp only [Bool.and_eq_true, List.all_eq_true] at hok
  obtain ⟨⟨⟨h1, h2⟩, h3⟩, h4⟩ := hok
  refine ⟨?_, ?_, ?_, ?_⟩
  · simpa using h1
  · simpa using h2
  · intro n hn ht
    have := h3 n hn
    simp [ht] at this
    simpa using this
  · intro n hn t htc
    have h5 := h4 n hn t htc
    simpa using h5

theorem not_end_of_pathOk (g : Graph) (id : String) (n : Node)
    (hl : lookupNode g.nodes id = some n) (hok : pathOk g = true)
    (hne : id ≠ "__end__") : n.type ≠ NodeType.endNode := by
  intro ht
  obtain ⟨hmem, hid⟩ := lookupNode_spec _ _ _ hl
  exact hne (hid ▸ (pathOk_parts g hok).2.2.1 n hmem ht)

theorem execLoop_typed (ex : GraphExecutor) (fuel : Nat) :
    ∀ (cur : String) (st : ExecutionState) (em : Emitter)
      (st2 : ExecutionState) (em2 : Emitter),
    ex.failAtNode = none → ex.interruptAtNode = none →
    pathOk ex.graph = true →
    cur ∉ startIds ex.graph →
    (∀ v ∈ st.nodesExecuted, execNodeOk ex.graph v) →
    execLoop ex fuel ex.graph.nodes cur st em = .ok st2 em2 →
    ∀ v ∈ st2.nodesExecuted, execNodeOk ex.graph v := by
  induction fuel with
  | zero =>
    intro cur st em st2 em2 _ _ _ _ _ h
    simp [execLoop] at h
  | succ fuel ih =>
    intro cur st em st2 em2 hfail hint hok hcur hprev h
    rcases hi : execIter ex ex.graph.nodes cur st em with ⟨st3, em3⟩ | ⟨e, st3, em3⟩
      | ⟨nodes3, cur3, st3, em3⟩
    · simp only [execLoop, hi] at h
      obtain ⟨hst, _, _⟩ := execIter_done_spec ex ex.graph.nodes cur st em st3 em3 hi
      subst hst
      cases h
      exact hprev
    · simp [execLoop, hi] at h
    · simp only [execLoop, hi] at h
      obtain ⟨_, hne, _, _, hcend, hcur3, ⟨nd, hlk⟩, hnof⟩ :=
        execIter_next_spec ex ex.graph.nodes cur st em nodes3 cur3 st3 em3 hi
      have hnodes3 : nodes3 = ex.graph.nodes := by
        apply hnof
        constructor
        · rw [hfail]
          simp
        · rw [hint]
          simp
      subst hnodes3
      have hcurok : execNodeOk ex.graph (Val.str cur) := by
        refine ⟨cur, nd, rfl, hlk, ?_, ?_⟩
        · exact not_start_of_not_mem_startIds _ _ _ hlk hcur
        · exact not_end_of_pathOk _ _ _ hlk hok hcend
      have hprev3 : ∀ v ∈ st3.nodesExecuted, execNodeOk ex.graph v := by
        intro v hv
        rw [hne] at hv
        rcases List.mem_append.mp hv with hv | hv
        · exact hprev v hv
        · rw [List.mem_singleton.mp hv]
          exact hcurok
      have hcur3ok : cur3 ∉ startIds ex.graph := by
        obtain ⟨hmem, hid⟩ := lookupNode_spec _ _ _ hlk
        have hcand : cur3 ∈ nextCandidates ex.graph cur := by
          rw [hcur3]
          exact getNextNode_mem ex cur st3
        exact (pathOk_parts ex.graph hok).2.2.2 nd hmem cur3 (hid ▸ hcand)
      exact ih cur3 st3 em3 st2 em2 hfail hint hok hcur3ok hprev3 h

/-! ### Facts about the forced-override wrapper -/

theorem forcedNode_id (ex : GraphExecutor) (cur : String) (node : Node) :
    (forcedNode ex cur node).id = node.id := by
  unfold forcedNode
  repeat' split
  all_goals rfl

theorem forcedNode_type_human (ex : GraphExecutor) (cur : String) (node : Node)
    (h : node.type = NodeType.human) : (forcedNode ex cur node).type = NodeType.human := by
  unfold forcedNode
  repeat' split
  all_goals first
  | rfl
  | exact h

theorem forcedNode_config_ne (ex : GraphExecutor) (cur : String) (node : Node)
    (k : String) (hk1 : k ≠ "should_fail") (hk2 : k ≠ "interrupt") :
    dGet? (forcedNode ex cur node).config k = dGet? node.config k := by
  unfold forcedNode
  repeat' split
  all_goals simp [dGet?_dSet_ne _ _ _ _ (Ne.symm hk1), dGet?_dSet_ne _ _ _ _ (Ne.symm hk2)]

theorem forcedNode_interrupt_truthy (ex : GraphExecutor) (cur : String) (node : Node)
    (h : (dGetD node.config "interrupt" (.bool false)).truthy = true) :
    (dGetD (forcedNode ex cur node).config "interrupt" (.bool false)).truthy = true := by
  unfold forcedNode
  repeat' split
  all_goals
    simp only [dGetD, dGet?_dSet_self, dGet?_dSet_ne _ _ _ _ (by decide : ("should_fail" : String) ≠ "interrupt")]
  all_goals first
  | rfl
  | exact h

theorem executeHumanNode_interrupt (node : Node) (st : ExecutionState)
    (hintc : (dGetD node.config "interrupt" (.bool false)).truthy = true)
    (hnap : (st.get "_human_approved" .null).truthy = false) :
    executeHumanNode node st = .error (.interrupt node.id
      (dGetD node.config "prompt" (.str "Human review required"))
      (dGetD node.config "required_fields" (.list []))) := by
  unfold executeHumanNode
  simp [hintc, hnap]

theorem executeHumanNode_approved (node : Node) (st : ExecutionState)
    (hintc : (dGetD node.config "interrupt" (.bool false)).truthy = true)
    (hap : (st.get "_human_approved" .null).truthy = true) :
    executeHumanNode node st = .ok (st.update "_human_approved" (.bool false)) := by
  unfold executeHumanNode
  simp [hintc, hap]

theorem executeNode_human_err (ex : GraphExecutor) (node : Node) (st : ExecutionState)
    (em : Emitter) (a : String) (b c : Val)
    (htype : node.type = NodeType.human)
    (hh : executeHumanNode node st = .error (.interrupt a b c)) :
    executeNode ex node st em = .err (.interrupt a b c) st
      (em.nodeStarted node.id "human"
        [("state_keys", .list ((dKeys st.values).map .str))]) := by
  simp [executeNode, htype, hh, NodeType.toStr]

theorem executeNode_human_ok (ex : GraphExecutor) (node : Node) (st st2 : ExecutionState)
    (em : Emitter)
    (htype : node.type = NodeType.human)
    (hh : executeHumanNode node st = .ok st2) :
    executeNode ex node st em = .ok st2
      ((em.nodeStarted node.id "human"
          [("state_keys", .list ((dKeys st.values).map .str))]).nodeCompleted node.id
        [("state_keys", .list ((dKeys st2.values).map .str))] 0) := by
  simp [executeNode, htype, hh, NodeType.toStr]

/-! ## The claims -/

/-- C1: executing a `human` node whose config has `interrupt` truthy
while no approval flag is set in state raises `InterruptError` carrying
that node's id, its configured prompt and its required_fields, and the
node is not marked executed: nothing is appended to `nodes_executed`
and no checkpoint is created.  If the approval flag is set (a resumed
invocation), the node completes as a no-op, resets the flag to `False`,
and the loop continues at the node's successor as computed by
`_get_next_node`. -/
theorem C1_human_interrupt
    (ex : GraphExecutor) (fuel : Nat) (nodes : List Node) (cur : String)
    (st : ExecutionState) (em : Emitter) (node : Node)
    (hcur1 : cur ≠ "") (hcur2 : cur ≠ "__end__")
    (hlook : lookupNode nodes cur = some node)
    (htype : node.type = NodeType.human)
    (hintc : (dGetD node.config "interrupt" (.bool false)).truthy = true) :
    (((st.get "_human_approved" .null).truthy = false) →
      ∃ st2 em2,
        execLoop ex (fuel + 1) nodes cur st em
          = .err (.interrupt cur
              (dGetD node.config "prompt" (.str "Human review required"))
              (dGetD node.config "required_fields" (.list []))) st2 em2 ∧
        st2.nodesExecuted = st.nodesExecuted ∧
        st2.checkpoints = st.checkpoints) ∧
    (((st.get "_human_approved" .null).truthy = true) →
      ∃ nodes2 st2 em2,
        execLoop ex (fuel + 1) nodes cur st em
          = execLoop ex fuel nodes2 (getNextNode ex nodes2 cur st2) st2 em2 ∧
        st2.get "_human_approved" .null = .bool false ∧
        st2.nodesExecuted = st.nodesExecuted ++ [Val.str cur] ∧
        ∃ cp, st2.checkpoints = st.checkpoints ++ [cp] ∧ cp.nodeId = cur) := by
  have hguard : ¬ (cur = "" ∨ cur = "__end__") := by
    rintro (hc | hc)
    · exact hcur1 hc
    · exact hcur2 hc
  have hid : node.id = cur := (lookupNode_spec nodes cur node hlook).2
  have hfn_type := forcedNode_type_human ex cur node htype
  have hfn_int := forcedNode_interrupt_truthy ex cur node hintc
  have hprompt : dGetD (forcedNode ex cur node).config "prompt"
      (.str "Human review required")
      = dGetD node.config "prompt" (.str "Human review required") := by
    simp [dGetD, forcedNode_config_ne ex cur node "prompt" (by decide) (by decide)]
  have hfields : dGetD (forcedNode ex cur node).config "required_fields" (.list [])
      = dGetD node.config "required_fields" (.list []) := by
    simp [dGetD, forcedNode_config_ne ex cur node "required_fields" (by decide) (by decide)]
  constructor
  · intro hnap
    have hhum := executeHumanNode_interrupt (forcedNode ex cur node)
      { st with currentNode := some cur } hfn_int hnap
    rw [hprompt, hfields, forcedNode_id, hid] at hhum
    have hexe := executeNode_human_err ex (forcedNode ex cur node)
      { st with currentNode := some cur } em cur
      (dGetD node.config "prompt" (.str "Human review required"))
      (dGetD node.config "required_fields" (.list [])) hfn_type hhum
    refine ⟨{ st with currentNode := some cur },
      em.nodeStarted (forcedNode ex cur node).id "human"
        [("state_keys", .list ((dKeys st.values).map .str))], ?_, rfl, rfl⟩
    simp only [execLoop, execIter, hguard, hlook, hexe]
    simp
  · intro hap
    have hhum := executeHumanNode_approved (forcedNode ex cur node)
      { st with currentNode := some cur } hfn_int hap
    have hexe := executeNode_human_ok ex (forcedNode ex cur node)
      { st with currentNode := some cur } _ em hfn_type hhum
    rcases hi : execIter ex nodes cur st em with ⟨st3, em3⟩ | ⟨e, st3, em3⟩
      | ⟨nodes3, cur3, st3, em3⟩
    · obtain ⟨_, _, hg⟩ := execIter_done_spec ex nodes cur st em st3 em3 hi
      exact absurd hg hguard
    · exfalso
      simp only [execIter, hguard, hlook, hexe] at hi
      exact IterOut.noConfusion hi
    · obtain ⟨⟨cp, hck, hcp⟩, hne, _, _, _, hcur3, _, _⟩ :=
        execIter_next_spec ex nodes cur st em nodes3 cur3 st3 em3 hi
      have hval : st3.get "_human_approved" .null = .bool false := by
        simp only [execIter, hguard, hlook, hexe] at hi
        injection hi with hA hB hC hD
        rw [← hC]
        simp [ExecutionState.get, ExecutionState.update, ExecutionState.createCheckpoint,
          dGetD, dGet?_dSet_self]
      refine ⟨nodes3, st3, em3, ?_, hval, hne, cp, hck, hcp⟩
      rw [← hcur3]
      simp only [execLoop, hi]

theorem forcedNode_type_of_nint (ex : GraphExecutor) (cur : String) (node : Node)
    (hnint : ex.interruptAtNode ≠ some cur) :
    (forcedNode ex cur node).type = node.type := by
  unfold forcedNode
  rw [if_neg hnint]
  split
  all_goals rfl

theorem forcedNode_should_fail_truthy (ex : GraphExecutor) (cur : String) (node : Node)
    (hnint : ex.interruptAtNode ≠ some cur)
    (h : (dGetD node.config "should_fail" .null).truthy = true) :
    (dGetD (forcedNode ex cur node).config "should_fail" .null).truthy = true := by
  unfold forcedNode
  rw [if_neg hnint]
  split
  · simp [dGetD, dGet?_dSet_self, Val.truthy]
  · exact h

theorem executeLLMNode_fail (ex : GraphExecutor) (node : Node) (st : ExecutionState)
    (em : Emitter)
    (h : (dGetD node.config "should_fail" .null).truthy = true) :
    executeLLMNode ex node st em = .err (.execError
      (Val.pyStr (dGetD node.config "error_message" (.str "Simulated LLM failure")))
      (some node.id)) st em := by
  unfold executeLLMNode
  simp [h]

theorem executeNode_llm_fail (ex : GraphExecutor) (node : Node) (st : ExecutionState)
    (em : Emitter)
    (htype : node.type = NodeType.llm)
    (h : (dGetD node.config "should_fail" .null).truthy = true) :
    executeNode ex node st em = .err (.execError
        (Val.pyStr (dGetD node.config "error_message" (.str "Simulated LLM failure")))
        (some node.id)) st
      ((em.nodeStarted node.id "llm"
          [("state_keys", .list ((dKeys st.values).map .str))]).nodeFailed node.id
        (Val.pyStr (dGetD node.config "error_message" (.str "Simulated LLM failure")))) := by
  have hf := executeLLMNode_fail ex node st
    (em.nodeStarted node.id "llm" [("state_keys", .list ((dKeys st.values).map .str))]) h
  simp [executeNode, htype, NodeType.toStr, hf]

/-- C4: executing an `llm` node whose config marks `should_fail` (and
which is not overridden into a human node by a forced interrupt) raises
`ExecutionError` whose message is the configured `error_message` and
whose offending node id is that node's id; nothing is appended to
`nodes_executed`, no checkpoint is taken, and the only events emitted by
the step are that node's `node.started` and `node.failed` — so no node
after it on the realized path executes or emits anything. -/
theorem C4_llm_should_fail
    (ex : GraphExecutor) (fuel : Nat) (nodes : List Node) (cur : String)
    (st : ExecutionState) (em : Emitter) (node : Node)
    (hcur1 : cur ≠ "") (hcur2 : cur ≠ "__end__")
    (hlook : lookupNode nodes cur = some node)
    (htype : node.type = NodeType.llm)
    (hnint : ex.interruptAtNode ≠ some cur)
    (hfailc : (dGetD node.config "should_fail" .null).truthy = true) :
    ∃ st2 em2,
      execLoop ex (fuel + 1) nodes cur st em
        = .err (.execError
            (Val.pyStr (dGetD node.config "error_message"
              (.str "Simulated LLM failure"))) (some cur)) st2 em2 ∧
      st2.nodesExecuted = st.nodesExecuted ∧
      st2.checkpoints = st.checkpoints ∧
      ∃ ev1 ev2, em2.events = em.events ++ [ev1, ev2] ∧
        ev1.type = .nodeStarted ∧ ev1.nodeId = some cur ∧
        ev2.type = .nodeFailed ∧ ev2.nodeId = some cur ∧
        dGet? ev2.data "error" = some (.str (Val.pyStr (dGetD node.config
          "error_message" (.str "Simulated LLM failure")))) := by
  have hguard : ¬ (cur = "" ∨ cur = "__end__") := by
    rintro (hc | hc)
    · exact hcur1 hc
    · exact hcur2 hc
  have hid : node.id = cur := (lookupNode_spec nodes cur node hlook).2
  have hfn_type : (forcedNode ex cur node).type = NodeType.llm := by
    rw [forcedNode_type_of_nint ex cur node hnint, htype]
  have hfn_fail := forcedNode_should_fail_truthy ex cur node hnint hfailc
  have hfn_msg : dGetD (forcedNode ex cur node).config "error_message"
      (.str "Simulated LLM failure")
      = dGetD node.config "error_message" (.str "Simulated LLM failure") := by
    simp [dGetD,
      forcedNode_config_ne ex cur node "error_message" (by decide) (by decide)]
  have hexe := executeNode_llm_fail ex (forcedNode ex cur node)
    { st with currentNode := some cur } em hfn_type hfn_fail
  rw [hfn_msg, forcedNode_id, hid] at hexe
  refine ⟨{ st with currentNode := some cur },
    (em.nodeStarted cur "llm"
      [("state_keys", .list ((dKeys st.values).map .str))]).nodeFailed cur
      (Val.pyStr (dGetD node.config "error_message" (.str "Simulated LLM failure"))),
    ?_, rfl, rfl, ?_⟩
  · simp only [execLoop, execIter, hguard, hlook, hexe]
    simp
  · refine ⟨{ type := .nodeStarted, runId := em.runId, nodeId := some cur
              data := [ ("node_type", .str "llm")
                      , ("input", .dict [("state_keys",
                          .list ((dKeys st.values).map .str))]) ] },
            { type := .nodeFailed, runId := em.runId, nodeId := some cur
              data := [("error", .str (Val.pyStr (dGetD node.config "error_message"
                (.str "Simulated LLM failure"))))] },
            ?_, rfl, rfl, rfl, rfl, ?_⟩
    · simp [Emitter.nodeStarted, Emitter.nodeFailed, Emitter.emit]
    · simp [dGet?]

/-- C2: checkpoints are independent snapshots.  Any further run of the
execution loop — whatever it does afterwards, including taking more
checkpoints and running nodes that write into state — leaves every
previously taken checkpoint unchanged at its index; and the checkpoint
appended by `create_checkpoint` records exactly the live `values`,
`messages` and `nodes_executed` at the moment it is taken (the source's
shallow `.copy()` snapshots behave as full copies because the executor
only rebinds top-level keys and appends to its own containers, never
mutating data nested inside an earlier snapshot). -/
theorem C2_checkpoint_independence :
    (∀ (ex : GraphExecutor) (fuel : Nat) (nodes : List Node) (cur : String)
        (st : ExecutionState) (em : Emitter) (i : Nat),
      i < st.checkpoints.length →
      (resultState (execLoop ex fuel nodes cur st em)).checkpoints[i]?
        = st.checkpoints[i]?) ∧
    (∀ (st : ExecutionState) (nodeId : String),
      (st.createCheckpoint nodeId).2.checkpoints
        = st.checkpoints ++ [(st.createCheckpoint nodeId).1] ∧
      (st.createCheckpoint nodeId).1
        = { checkpointId := st.checkpoints.length, nodeId := nodeId
            values := st.values, messages := st.messages
            nodesExecuted := st.nodesExecuted }) := by
  constructor
  · intro ex fuel nodes cur st em i hi
    obtain ⟨tail, htail⟩ := execLoop_checkpoints ex fuel nodes cur st em
    rw [htail]
    exact List.getElem?_append_left hi
  · intro st nodeId
    exact ⟨rfl, rfl⟩

/-- C7: an `llm.end` event always carries tokens with
`total = input + output`; the token summary exposes `input`, `output`
and `total = input + output`; events other than `llm.end` contribute
nothing to the summary, and each `llm.end` event adds exactly its own
input/output counts to the accumulating totals. -/
theorem C7_token_summary :
    (∀ (em : Emitter) (nodeId : String) (model : Val) (response : String)
        (ti tou dur : Int),
      (em.llmEnd nodeId model response ti tou dur).events
        = em.events
          ++ [{ type := .llmEnd, runId := em.runId, nodeId := some nodeId
                data := [ ("model", model)
                        , ("response_preview", .str (preview response))
                        , ("tokens", .dict
                            [ ("input", .int ti), ("output", .int tou)
                            , ("total", .int (ti + tou)) ])
                        , ("duration_ms", .int dur) ] }]) ∧
    (∀ em : Emitter, ∃ i o : Int,
      dGet? (Emitter.getTokenSummary em) "input" = some (.int i) ∧
      dGet? (Emitter.getTokenSummary em) "output" = some (.int o) ∧
      dGet? (Emitter.getTokenSummary em) "total" = some (.int (i + o))) ∧
    (∀ (em : Emitter) (e : Event), e.type ≠ .llmEnd →
      (em.emit e).getTokenSummary = em.getTokenSummary) ∧
    (∀ (em : Emitter) (nodeId : String) (model : Val) (response : String)
        (ti tou dur : Int),
      tokenTotals (em.llmEnd nodeId model response ti tou dur).events
        = ((tokenTotals em.events).1 + ti, (tokenTotals em.events).2 + tou)) := by
  refine ⟨?_, ?_, ?_, ?_⟩
  · intro em nodeId model response ti tou dur
    rfl
  · intro em
    exact ⟨(tokenTotals em.events).1, (tokenTotals em.events).2, rfl, by
      simp [Emitter.getTokenSummary, dGet?], by simp [Emitter.getTokenSummary, dGet?]⟩
  · intro em e he
    unfold Emitter.getTokenSummary tokenTotals
    simp [Emitter.emit, List.foldl_append, he]
  · intro em nodeId model response ti tou dur
    unfold tokenTotals
    simp [Emitter.llmEnd, Emitter.emit, List.foldl_append, dGetD, dGet?, Val.asDictD,
      dGetIntD, Val.asIntD]

/-- C9: when `execute` is given both `initial_state` (a truthy dict)
and `input_data`, the loop starts from `initial_state["values"]`
overlaid with `input_data` (the input wins on every key present in
both), `messages` and `nodes_executed` are restored unchanged, and the
checkpoint list of the new invocation starts empty. -/
theorem C9_resume_state_merge
    (d : Dict) (input : Dict)
    (hne : d.isEmpty = false)
    (hnodup : (input.map Prod.fst).Nodup) :
    (∀ (ex : GraphExecutor) (fuel : Nat) (rf : Option String) (em : Emitter),
      ex.execute fuel input (some d) rf em
        = execLoop ex fuel ex.graph.nodes (startNodeOf ex.graph rf)
            (GraphExecutor.initState (some d) input) em) ∧
    (∀ k v, dGet? input k = some v →
      dGet? (GraphExecutor.initState (some d) input).values k = some v) ∧
    (∀ k, dGet? input k = none →
      dGet? (GraphExecutor.initState (some d) input).values k
        = dGet? ((dGetD d "values" (.dict [])).asDictD) k) ∧
    (GraphExecutor.initState (some d) input).messages
      = (dGetD d "messages" (.list [])).asListD ∧
    (GraphExecutor.initState (some d) input).nodesExecuted
      = (dGetD d "nodes_executed" (.list [])).asListD ∧
    (GraphExecutor.initState (some d) input).checkpoints = [] := by
  have hinit : GraphExecutor.initState (some d) input
      = { values := dUpdate ((dGetD d "values" (.dict [])).asDictD) input
          messages := (dGetD d "messages" (.list [])).asListD
          currentNode := none
          nodesExecuted := (dGetD d "nodes_executed" (.list [])).asListD
          checkpoints := [] } := by
    simp [GraphExecutor.initState, hne]
  refine ⟨fun ex fuel rf em => rfl, ?_, ?_, ?_, ?_, ?_⟩
  · intro k v hk
    rw [hinit]
    exact dGet?_dUpdate_of_some _ _ _ _ hnodup hk
  · intro k hk
    rw [hinit]
    exact dGet?_dUpdate_of_none _ _ _ hk
  · rw [hinit]
  · rw [hinit]
  · rw [hinit]

theorem registry_pathOk : GRAPHS.all (fun p => pathOk p.2) = true := by decide

/-- C3: on every registered graph, a successful fresh run (no resume, no
forced failure or interrupt) creates exactly one checkpoint per
executed node — the checkpoint node ids, in order, are exactly
`nodes_executed` — and every executed node is a non-start,
non-terminal node of the graph (so the checkpoint count equals the
number of non-start/non-terminal nodes on the realized path, repeated
visits included; the `__end__` sentinel never executes or receives a
checkpoint). -/
theorem C3_checkpoint_per_node
    (g : Graph) (hg : g ∈ GRAPHS.map Prod.snd)
    (delayMs tokenCount : Int) (input : Dict) (fuel : Nat) (em : Emitter)
    (st2 : ExecutionState) (em2 : Emitter)
    (h : GraphExecutor.execute
        { graph := g, delayMs := delayMs, failAtNode := none
          interruptAtNode := none, tokenCount := tokenCount }
        fuel input none none em = .ok st2 em2) :
    st2.checkpoints.map (fun c => Val.str c.nodeId) = st2.nodesExecuted ∧
    ∀ v ∈ st2.nodesExecuted, execNodeOk g v := by
  have hpath : pathOk g = true := by
    obtain ⟨p, hp, hpg⟩ := List.mem_map.mp hg
    rw [← hpg]
    exact List.all_eq_true.mp registry_pathOk p hp
  have hentry : g.entryPoint ∉ startIds g := (pathOk_parts g hpath).1
  have hpair := execLoop_pairing
    { graph := g, delayMs := delayMs, failAtNode := none
      interruptAtNode := none, tokenCount := tokenCount } fuel
    g.nodes g.entryPoint (GraphExecutor.initState none input) em rfl
  rw [show (GraphExecutor.execute
        { graph := g, delayMs := delayMs, failAtNode := none
          interruptAtNode := none, tokenCount := tokenCount }
        fuel input none none em)
      = execLoop
        { graph := g, delayMs := delayMs, failAtNode := none
          interruptAtNode := none, tokenCount := tokenCount } fuel
        g.nodes g.entryPoint (GraphExecutor.initState none input) em from rfl] at h
  rw [h] at hpair
  simp only [resultState] at hpair
  refine ⟨hpair, ?_⟩
  exact execLoop_typed
    { graph := g, delayMs := delayMs, failAtNode := none
      interruptAtNode := none, tokenCount := tokenCount } fuel
    g.entryPoint (GraphExecutor.initState none input) em st2 em2
    rfl rfl hpath hentry (by intro v hv; simp [GraphExecutor.initState] at hv) h

/-- The long_running run the spec describes: graph `long_running`,
a message input, default worker configuration. -/
def C6run : RunOutcome :=
  (executeRun "run-c6" "long_running" [("message", .str "hi")] none none 16).1

/-- Unrolling equation for one loop iteration. -/
theorem execLoop_succ (ex : GraphExecutor) (fuel : Nat) (nodes : List Node)
    (cur : String) (st : ExecutionState) (em : Emitter) :
    execLoop ex (fuel + 1) nodes cur st em
      = match execIter ex nodes cur st em with
        | .done st em => .ok st em
        | .fail e st em => .err e st em
        | .next nodes cur st em => execLoop ex fuel nodes cur st em := rfl

theorem dErase_eq_self (d : Dict) (k : String) (h : dGet? d k = none) :
    dErase d k = d := by
  induction d with
  | nil => rfl
  | cons kv rest ih =>
    have hk : kv.1 ≠ k := by
      intro hh
      simp [dGet?, hh] at h
    have hr : dGet? rest k = none := by
      simpa [dGet?, hk] using h
    simp [dErase, hk]
    simpa [dErase] using ih hr

/-- `execute_run` on an input without `_mock_config`: the pop is a no-op
and the executor runs with the module-level config defaults. -/
theorem executeRun_no_mock (runId graphId : String) (input : Dict)
    (initSt : Option Dict) (rf : Option String) (fuel : Nat) (g : Graph)
    (hmc : dGet? input "_mock_config" = none)
    (hg : getGraph graphId = some g) :
    executeRun runId graphId input initSt rf fuel
      = (match GraphExecutor.execute { graph := g } fuel input initSt rf
            (Emitter.runStarted { runId := runId } input) with
         | .ok st em => (.success st (em.runCompleted st.toDict 0), input)
         | .err (.interrupt nid p f) _ em =>
           (.interrupted nid p f
             (em.runInterrupted nid [("prompt", p), ("required_fields", f)]), input)
         | .err (.execError m nid) _ em => (.failed m nid (em.runFailed m nid), input)
         | .outOfFuel _ em => (.outOfFuel em, input)) := by
  unfold executeRun
  rw [hmc, dErase_eq_self input "_mock_config" hmc]
  simp [hg, configMockDelayMs, configMockFailAtNode, configMockInterruptAtNode,
    configMockTokenCount]

/-! Intermediate states of the `long_running` run, as the executor
produces them (one definition per executed node). -/

/-- The executor `execute_run` builds for the `long_running` run. -/
def exLR : GraphExecutor := { graph := LONG_RUNNING }

/-- State entering the loop. -/
def stLR0 : ExecutionState := { values := [("message", .str "hi")] }

/-- Values after `init`. -/
def valsLR1 : Dict :=
  [ ("message", .str "hi"), ("iteration", .int 0)
  , ("last_response", .str "Initializing long process for: hi") ]

/-- Messages after `init`. -/
def msgsLR1 : List Val :=
  [ .dict [ ("role", .str "assistant")
          , ("content", .str "Initializing long process for: hi")
          , ("node_id", .str "init") ] ]

/-- Checkpoint taken after `init`. -/
def cpLR1 : Checkpoint :=
  { checkpointId := 0, nodeId := "init", values := valsLR1, messages := msgsLR1
    nodesExecuted := [.str "init"] }

/-- State after `init`. -/
def stLR1 : ExecutionState :=
  { values := valsLR1, messages := msgsLR1, currentNode := some "init"
    nodesExecuted := [.str "init"], checkpoints := [cpLR1] }

/-- Values after the single execution of `loop` (the iteration counter
was bumped once, to 1). -/
def valsLR2 : Dict :=
  [ ("message", .str "hi"), ("iteration", .int 0)
  , ("last_response", .str "Processing iteration 0")
  , ("_loop_iteration", .int 1) ]

/-- Messages after `loop`. -/
def msgsLR2 : List Val :=
  msgsLR1 ++
    [ .dict [ ("role", .str "assistant")
            , ("content", .str "Processing iteration 0")
            , ("node_id", .str "loop") ] ]

/-- History after `loop`. -/
def neLR2 : List Val := [.str "init", .str "loop"]

/-- Checkpoint taken after `loop`. -/
def cpLR2 : Checkpoint :=
  { checkpointId := 1, nodeId := "loop", values := valsLR2, messages := msgsLR2
    nodesExecuted := neLR2 }

/-- State after `loop`. -/
def stLR2 : ExecutionState :=
  { values := valsLR2, messages := msgsLR2, currentNode := some "loop"
    nodesExecuted := neLR2, checkpoints := [cpLR1, cpLR2] }

/-- Values after `complete`. -/
def valsLR3 : Dict :=
  [ ("message", .str "hi"), ("iteration", .int 0)
  , ("last_response", .str "Completed all iterations. Final result for: hi")
  , ("_loop_iteration", .int 1) ]

/-- Messages after `complete`. -/
def msgsLR3 : List Val :=
  msgsLR2 ++
    [ .dict [ ("role", .str "assistant")
            , ("content", .str "Completed all iterations. Final result for: hi")
            , ("node_id", .str "complete") ] ]

/-- History after `complete`. -/
def neLR3 : List Val := [.str "init", .str "loop", .str "complete"]

/-- Checkpoint taken after `complete`. -/
def cpLR3 : Checkpoint :=
  { checkpointId := 2, nodeId := "complete", values := valsLR3, messages := msgsLR3
    nodesExecuted := neLR3 }

/-- State after `complete`. -/
def stLR3 : ExecutionState :=
  { values := valsLR3, messages := msgsLR3, currentNode := some "complete"
    nodesExecuted := neLR3, checkpoints := [cpLR1, cpLR2, cpLR3] }

/-- Final state of the run. -/
def stLRF : ExecutionState := { stLR3 with currentNode := none }

theorem stageLR1 (em : Emitter) : ∃ em2,
    execIter exLR LONG_RUNNING.nodes "init" stLR0 em
      = .next LONG_RUNNING.nodes "loop" stLR1 em2 := ⟨_, rfl⟩

theorem stageLR2 (em : Emitter) : ∃ em2,
    execIter exLR LONG_RUNNING.nodes "loop" stLR1 em
      = .next LONG_RUNNING.nodes "complete" stLR2 em2 := ⟨_, rfl⟩

theorem stageLR3 (em : Emitter) : ∃ em2,
    execIter exLR LONG_RUNNING.nodes "complete" stLR2 em
      = .next LONG_RUNNING.nodes "__end__" stLR3 em2 := ⟨_, rfl⟩

theorem stageLR_loop (em : Emitter) : ∃ em2,
    execLoop exLR 16 LONG_RUNNING.nodes "init" stLR0 em = .ok stLRF em2 := by
  obtain ⟨em1, h1⟩ := stageLR1 em
  obtain ⟨em2, h2⟩ := stageLR2 em1
  obtain ⟨em3, h3⟩ := stageLR3 em2
  refine ⟨em3, ?_⟩
  rw [show (16 : Nat) = 15 + 1 from rfl, execLoop_succ, h1]
  change execLoop exLR 15 LONG_RUNNING.nodes "loop" stLR1 em1 = _
  rw [show (15 : Nat) = 14 + 1 from rfl, execLoop_succ, h2]
  change execLoop exLR 14 LONG_RUNNING.nodes "complete" stLR2 em2 = _
  rw [show (14 : Nat) = 13 + 1 from rfl, execLoop_succ, h3]
  change execLoop exLR 13 LONG_RUNNING.nodes "__end__" stLR3 em3 = _
  rw [show (13 : Nat) = 12 + 1 from rfl, execLoop_succ]
  rfl

/-- C6 (code evaluation): in the `long_running` graph the `loop` node
executes exactly once — `nodes_executed` is
`["init", "loop", "complete"]`, with a single visit to `loop` — and the
internal `_loop_iteration` counter ends at 1, not 5: `_get_next_node`
has no self-loop logic, so the executor advances past `loop` after one
execution, contradicting the claimed five repetitions. -/
theorem C6_loop_single_execution :
    (runOutcomeState C6run).map (fun st => st.nodesExecuted)
      = some [Val.str "init", Val.str "loop", Val.str "complete"] ∧
    (runOutcomeState C6run).map (fun st => dGet? st.values "_loop_iteration")
      = some (some (.int 1)) ∧
    (runOutcomeState C6run).map (fun st => st.nodesExecuted.count (Val.str "loop"))
      = some 1 := by
  have hrun : ∃ em2, C6run = .success stLRF em2 := by
    obtain ⟨em2, hs⟩ :=
      stageLR_loop (Emitter.runStarted { runId := "run-c6" } [("message", .str "hi")])
    have hexecute : GraphExecutor.execute exLR 16 [("message", .str "hi")] none none
        (Emitter.runStarted { runId := "run-c6" } [("message", .str "hi")])
        = .ok stLRF em2 := by
      rw [show GraphExecutor.execute exLR 16 [("message", .str "hi")] none none
          (Emitter.runStarted { runId := "run-c6" } [("message", .str "hi")])
          = execLoop exLR 16 LONG_RUNNING.nodes "init" stLR0
            (Emitter.runStarted { runId := "run-c6" } [("message", .str "hi")])
        from rfl]
      exact hs
    refine ⟨em2.runCompleted stLRF.toDict 0, ?_⟩
    show (executeRun "run-c6" "long_running" [("message", .str "hi")] none none 16).1 = _
    rw [executeRun_no_mock "run-c6" "long_running" [("message", .str "hi")] none none 16
      LONG_RUNNING (by decide) (by decide)]
    rw [show ({ graph := LONG_RUNNING } : GraphExecutor) = exLR from rfl, hexecute]
  obtain ⟨em2, hr⟩ := hrun
  rw [hr]
  simp only [runOutcomeState]
  exact ⟨by decide, by decide, by decide⟩

theorem runFailed_of_isRunLevel (e : Event) (h : isRunLevel e = false) :
    (e.type == EventType.runFailed) = false := by
  unfold isRunLevel at h
  revert h
  cases e.type
  all_goals intro h
  all_goals first
  | rfl
  | exact absurd h (by decide)

theorem countRunFailed_of_emExtends (em em2 : Emitter) (h : emExtends em em2) :
    em2.events.countP (fun e => e.type == EventType.runFailed)
      = em.events.countP (fun e => e.type == EventType.runFailed) := by
  obtain ⟨_, l, he, ha⟩ := h
  rw [he, List.countP_append]
  have hz : l.countP (fun e => e.type == EventType.runFailed) = 0 := by
    rw [List.countP_eq_zero]
    intro e hel
    simpa using runFailed_of_isRunLevel e (ha e hel)
  rw [hz]
  omega

theorem execute_emitter (ex : GraphExecutor) (fuel : Nat) (input : Dict)
    (initSt : Option Dict) (rf : Option String) (em : Emitter) :
    emExtends em (resultEmitter (ex.execute fuel input initSt rf em)) := by
  unfold GraphExecutor.execute
  exact execLoop_emitter ex fuel ex.graph.nodes _ _ em

/-- Inversion of a `Failed` outcome of `execute_run`: it always comes
from an `ExecutionError` raised by the executor, and the returned
emitter is the executor's emitter with one `run.failed` appended. -/
theorem executeRun_failed_inv (runId graphId : String) (input : Dict)
    (initSt : Option Dict) (rf : Option String) (fuel : Nat) (msg : String)
    (nid : Option String) (em : Emitter) (popped : Dict)
    (h : executeRun runId graphId input initSt rf fuel = (.failed msg nid em, popped)) :
    ∃ (ex : GraphExecutor) (st3 : ExecutionState) (em3 : Emitter),
      ex.execute fuel (dErase input "_mock_config") initSt rf
        (Emitter.runStarted { runId := runId } (dErase input "_mock_config"))
        = .err (.execError msg nid) st3 em3 ∧
      em = em3.runFailed msg nid := by
  simp only [executeRun] at h
  split at h
  · simp [Prod.ext_iff] at h
  · split at h
    · simp [Prod.ext_iff] at h
    · simp [Prod.ext_iff] at h
    · rename_i m n stX em3 heq
      injection h with h1 h2
      injection h1 with hm hn hem
      subst hm hn
      exact ⟨_, stX, em3, heq, hem.symm⟩
    · simp [Prod.ext_iff] at h

/-- C5 (amended): whenever a run ends in `Failed`, exactly one
`run.failed` event exists in the log; it is the last event, carrying
the error message in its data and the exception\x27s node id in its
`node_id` field.  For the `NodeNotFound` failure specifically the
message is `"Node not found: <id>"` — naming the missing node — but
the `node_id` field is `None`, because the executor raises that
`ExecutionError` without a node id. -/
theorem C5_node_not_found
    (runId graphId : String) (input : Dict) (initSt : Option Dict)
    (rf : Option String) (fuel : Nat) (msg : String) (nid : Option String)
    (em : Emitter) (popped : Dict)
    (h : executeRun runId graphId input initSt rf fuel = (.failed msg nid em, popped)) :
    em.events.countP (fun e => e.type == EventType.runFailed) = 1 ∧
    em.events.getLast? = some { type := .runFailed, runId := runId, nodeId := nid
                                data := [("error", .str msg)] } ∧
    (nid = none → ∃ bad, msg = "Node not found: " ++ bad) := by
  obtain ⟨exq, st3, em3, heq, hem⟩ :=
    executeRun_failed_inv runId graphId input initSt rf fuel msg nid em popped h
  subst hem
  have hext : emExtends
      (Emitter.runStarted { runId := runId } (dErase input "_mock_config")) em3 := by
    have hx := execute_emitter exq fuel (dErase input "_mock_config") initSt rf
      (Emitter.runStarted { runId := runId } (dErase input "_mock_config"))
    rw [heq] at hx
    simpa [resultEmitter] using hx
  refine ⟨?_, ?_, ?_⟩
  · simp only [Emitter.runFailed, Emitter.emit, List.countP_append]
    rw [countRunFailed_of_emExtends _ _ hext]
    rfl
  · have hrid : em3.runId = runId := hext.1
    simp [Emitter.runFailed, Emitter.emit, hrid]
  · intro hnone
    subst hnone
    have hloop : execLoop exq fuel exq.graph.nodes (startNodeOf exq.graph rf)
        (GraphExecutor.initState initSt (dErase input "_mock_config"))
        (Emitter.runStarted { runId := runId } (dErase input "_mock_config"))
        = .err (.execError msg none) st3 em3 := heq
    exact execLoop_err_none exq fuel _ _ _ _ msg st3 em3 hloop

/-- The node-not-found run: resuming `simple_echo` from a node id that
does not exist. -/
def C5run : RunOutcome × Dict :=
  executeRun "run-c5" "simple_echo" [] none (some "ghost") 8

/-- C5 (counterexample): the `NodeNotFound` failure produces a
`run.failed` event whose `node_id` field is `None` — not the offending
node id, which appears only inside the error message text. -/
theorem C5_counterexample :
    (match C5run.1 with
     | .failed msg nid em =>
       some (msg, nid, em.events.getLast?.map (fun e => (e.type, e.nodeId)))
     | _ => none)
      = some ("Node not found: ghost", none, some (EventType.runFailed, none)) := by
  decide


/-! ## C8: worker dispatch, event forwarding and cleanup -/

/-- Whether a post is the forwarding of the accumulated run event log
(`Worker._send_events`). -/
def Post.isRunEvents : Post → Bool
  | .runEvents _ _ _ => true
  | _ => false

/-- Whether a run outcome is a success. -/
def RunOutcome.isSuccess : RunOutcome → Bool
  | .success _ _ => true
  | _ => false

/-- Whether a run outcome lands in one of the two failure handlers of
`Worker._execute_run` (`ExecutionError`, or the unexpected-exception
handler that catches the `ValueError` of an unknown graph). -/
def RunOutcome.isFailureBranch : RunOutcome → Bool
  | .failed _ _ _ => true
  | .unknownGraph _ => true
  | _ => false

theorem vGet?_vErase_self (d : VDict) (k : Val) : vGet? (vErase d k) k = none := by
  induction d with
  | nil => rfl
  | cons kv rest ih =>
    by_cases h : kv.1 = k
    · simpa [vErase, List.filter_cons, h] using ih
    · simpa [vErase, List.filter_cons, vGet?, h] using ih

/-- C8 (amended): whatever the executor outcome, `Worker._execute_run`
removes the run from `active_runs` in its guaranteed cleanup, reverts
`status` to idle exactly when no runs remain active, counts the run in
`total_runs`, and increments `failed_runs` only for the two failure
handlers — an interrupted run is counted neither as success nor as
failure, and its status post carries the node id, prompt and required
fields.  However the accumulated event log is forwarded to the control
plane (`_send_events`) only on success: an interrupted or failed run
produces no event-log post, because the `InterruptError` /
`ExecutionError` propagates before the `_send_events` line is
reached. -/
theorem C8_worker_cleanup (w : WorkerState) (runData : Dict) (fuel : Nat)
    (w2 : WorkerState) (posts : List Post)
    (h : workerExecuteRun w runData fuel = some (w2, posts)) :
    vGet? w2.activeRuns (dGetD runData "run_id" .null) = none ∧
    w2.status = (if w2.activeRuns.isEmpty then "idle" else "running") ∧
    w2.totalRuns = w.totalRuns + 1 ∧
    posts.any (fun p => p.isRunEvents) = (dispatchOutcome runData fuel).isSuccess ∧
    w2.failedRuns
      = w.failedRuns
        + (if (dispatchOutcome runData fuel).isFailureBranch then 1 else 0) ∧
    (∀ nid prompt fields emx,
      dispatchOutcome runData fuel = .interrupted nid prompt fields emx →
      updateRunStatusPost (dGetD runData "thread_id" .null)
        (dGetD runData "run_id" .null) "interrupted"
        (some [ ("interrupted_at", .str nid), ("prompt", prompt)
              , ("required_fields", fields) ]) ∈ posts) := by
  simp only [workerExecuteRun] at h
  split at h
  · exact absurd h (by simp)
  · rename_i st em heq
    injection h with h1
    injection h1 with hw hp
    subst hw hp
    by_cases hA : (vErase (vSet w.activeRuns (dGetD runData "run_id" Val.null)
        (.dict [("thread_id", dGetD runData "thread_id" Val.null)]))
        (dGetD runData "run_id" Val.null)).isEmpty
    all_goals
      simp [hA, vGet?_vErase_self, Post.isRunEvents, RunOutcome.isSuccess,
        RunOutcome.isFailureBranch, heq, updateRunStatusPost, completeRunPost]
  · rename_i nid p f emx heq
    injection h with h1
    injection h1 with hw hp
    subst hw hp
    by_cases hA : (vErase (vSet w.activeRuns (dGetD runData "run_id" Val.null)
        (.dict [("thread_id", dGetD runData "thread_id" Val.null)]))
        (dGetD runData "run_id" Val.null)).isEmpty
    all_goals
      simp [hA, vGet?_vErase_self, Post.isRunEvents, RunOutcome.isSuccess,
        RunOutcome.isFailureBranch, heq, updateRunStatusPost, completeRunPost]
    all_goals exact fun a b c d h1 h2 h3 h4 => ⟨h1.symm, h2.symm, h3.symm⟩
  · rename_i msg nid emx heq
    injection h with h1
    injection h1 with hw hp
    subst hw hp
    by_cases hA : (vErase (vSet w.activeRuns (dGetD runData "run_id" Val.null)
        (.dict [("thread_id", dGetD runData "thread_id" Val.null)]))
        (dGetD runData "run_id" Val.null)).isEmpty
    all_goals
      simp [hA, vGet?_vErase_self, Post.isRunEvents, RunOutcome.isSuccess,
        RunOutcome.isFailureBranch, heq, updateRunStatusPost, completeRunPost]
  · rename_i msg heq
    injection h with h1
    injection h1 with hw hp
    subst hw hp
    by_cases hA : (vErase (vSet w.activeRuns (dGetD runData "run_id" Val.null)
        (.dict [("thread_id", dGetD runData "thread_id" Val.null)]))
        (dGetD runData "run_id" Val.null)).isEmpty
    all_goals
      simp [hA, vGet?_vErase_self, Post.isRunEvents, RunOutcome.isSuccess,
        RunOutcome.isFailureBranch, heq, updateRunStatusPost, completeRunPost]

/-- A dispatched run that gets interrupted on its first node:
`simple_echo` with a mock `interrupt_at` pointing at the entry node. -/
def rdC8 : Dict :=
  [ ("run_id", .str "r8"), ("thread_id", .str "t8")
  , ("graph_id", .str "simple_echo")
  , ("input", .dict [ ("message", .str "hi")
                    , ("_mock_config", .dict [("interrupt_at", .str "echo")]) ]) ]

/-- C8 (counterexample): an interrupted run — one of the three terminal
outcomes the claim quantifies over — produces no event-log post at all:
`_send_events` is only reached on success.  Cleanup does happen: the
run leaves `active_runs`, status reverts to idle, `failed_runs` stays
at 0. -/
theorem C8_counterexample :
    (match workerExecuteRun { workerId := "w8" } rdC8 8 with
     | some (w2, posts) =>
       some (Val.list [ .bool (posts.any (fun p => p.isRunEvents))
                      , .int w2.failedRuns, .int w2.totalRuns
                      , .str w2.status, .bool w2.activeRuns.isEmpty ])
     | none => none)
      = some (Val.list [.bool false, .int 0, .int 1, .str "idle", .bool true]) ∧
    (match dispatchOutcome rdC8 8 with
     | .interrupted nid _ _ _ => some nid
     | _ => none)
      = some "echo" := by
  exact ⟨by decide, by decide⟩

/-! ## C10: the `_mock_config` pop of `execute_run` -/

/-- The input mapping `execute_run` leaves behind is always the
caller\x27s mapping with `_mock_config` removed. -/
theorem executeRun_snd (runId graphId : String) (input : Dict)
    (initSt : Option Dict) (rf : Option String) (fuel : Nat) :
    (executeRun runId graphId input initSt rf fuel).2
      = dErase input "_mock_config" := by
  simp only [executeRun]
  repeat' split
  all_goals rfl

/-- Any concrete result of `GraphExecutor.execute` extends the emitter
it was started with. -/
theorem execute_extends_of_eq (ex : GraphExecutor) (fuel : Nat) (input : Dict)
    (initSt : Option Dict) (rf : Option String) (em : Emitter) (res : ExecResult)
    (h : ex.execute fuel input initSt rf em = res) :
    emExtends em (resultEmitter res) := by
  rw [← h]
  exact execute_emitter ex fuel input initSt rf em

/-- The first event of any emitter `execute_run` hands back is the
`run.started` event, and its recorded input is the popped mapping. -/
theorem executeRun_emitter_head (runId graphId : String) (input : Dict)
    (initSt : Option Dict) (rf : Option String) (fuel : Nat) (r : RunOutcome)
    (popped : Dict) (em : Emitter)
    (h : executeRun runId graphId input initSt rf fuel = (r, popped))
    (hem : runOutcomeEmitter r = some em) :
    em.events.head?
      = some { type := .runStarted, runId := runId
               data := [("input", .dict (dErase input "_mock_config"))] } := by
  simp only [executeRun] at h
  split at h
  · injection h with h1 h2
    subst h1
    simp [runOutcomeEmitter] at hem
  · rename_i graph hg
    split at h
    · rename_i st emX heq
      injection h with h1 h2
      subst h1
      simp only [runOutcomeEmitter] at hem
      injection hem with he
      subst he
      have hext := execute_extends_of_eq _ _ _ _ _ _ _ heq
      obtain ⟨hrid, l, he, ha⟩ := hext
      have he2 : emX.events
          = { type := .runStarted, runId := runId
              data := [("input", .dict (dErase input "_mock_config"))] } :: l := by
        rw [show (resultEmitter (.ok st emX)) = emX from rfl] at he
        rw [he]
        rfl
      simp [Emitter.runCompleted, Emitter.emit, he2]
    · rename_i nid p f stX emX heq
      injection h with h1 h2
      subst h1
      simp only [runOutcomeEmitter] at hem
      injection hem with he
      subst he
      have hext := execute_extends_of_eq _ _ _ _ _ _ _ heq
      obtain ⟨hrid, l, he, ha⟩ := hext
      have he2 : emX.events
          = { type := .runStarted, runId := runId
              data := [("input", .dict (dErase input "_mock_config"))] } :: l := by
        rw [show (resultEmitter (.err (.interrupt nid p f) stX emX)) = emX from rfl] at he
        rw [he]
        rfl
      simp [Emitter.runInterrupted, Emitter.emit, he2]
    · rename_i msg nid stX emX heq
      injection h with h1 h2
      subst h1
      simp only [runOutcomeEmitter] at hem
      injection hem with he
      subst he
      have hext := execute_extends_of_eq _ _ _ _ _ _ _ heq
      obtain ⟨hrid, l, he, ha⟩ := hext
      have he2 : emX.events
          = { type := .runStarted, runId := runId
              data := [("input", .dict (dErase input "_mock_config"))] } :: l := by
        rw [show (resultEmitter (.err (.execError msg nid) stX emX)) = emX from rfl] at he
        rw [he]
        rfl
      simp [Emitter.runFailed, Emitter.emit, he2]
    · rename_i stX emX heq
      injection h with h1 h2
      subst h1
      simp only [runOutcomeEmitter] at hem
      injection hem with he
      subst he
      have hext := execute_extends_of_eq _ _ _ _ _ _ _ heq
      obtain ⟨hrid, l, he, ha⟩ := hext
      have he2 : emX.events
          = { type := .runStarted, runId := runId
              data := [("input", .dict (dErase input "_mock_config"))] } :: l := by
        rw [show (resultEmitter (.outOfFuel stX emX)) = emX from rfl] at he
        rw [he]
        rfl
      simp [he2]

/-- C10 (amended): `execute_run` pops `_mock_config` from the
caller-supplied input mapping before execution begins — a visible
mutation of the argument — leaving every other key unchanged and the
popped key absent, and the `run.started` event records the popped
mapping as the run\x27s input.  The final state\x27s values, however, are
not guaranteed to lack `_mock_config`: a truthy `initial_state` is
merged into the values verbatim and can reintroduce the key. -/
theorem C10_input_pop (runId graphId : String) (input : Dict)
    (initSt : Option Dict) (rf : Option String) (fuel : Nat) (r : RunOutcome)
    (popped : Dict)
    (h : executeRun runId graphId input initSt rf fuel = (r, popped)) :
    popped = dErase input "_mock_config" ∧
    dGet? popped "_mock_config" = none ∧
    (∀ k, k ≠ "_mock_config" → dGet? popped k = dGet? input k) ∧
    (∀ em, runOutcomeEmitter r = some em →
      em.events.head?
        = some { type := .runStarted, runId := runId
                 data := [("input", .dict (dErase input "_mock_config"))] }) := by
  have hsnd : popped = dErase input "_mock_config" := by
    have h2 := congrArg Prod.snd h
    rw [executeRun_snd] at h2
    exact h2.symm
  refine ⟨hsnd, ?_, ?_, ?_⟩
  · rw [hsnd]
    exact dGet?_dErase_self input "_mock_config"
  · intro k hk
    rw [hsnd]
    exact dGet?_dErase_ne input k "_mock_config" hk
  · intro em hem
    exact executeRun_emitter_head runId graphId input initSt rf fuel r popped em h hem

/-- The run the C10 counterexample inspects: `simple_echo` with an
`initial_state` that contains `_mock_config`. -/
def C10run : RunOutcome × Dict :=
  executeRun "run-c10" "simple_echo" [("message", .str "hi")]
    (some [("values", .dict [("_mock_config", .dict [("marker", .int 1)])])]) none 8

/-- C10 (counterexample): the final state\x27s values CAN contain
`_mock_config` — the pop only mutates `input_data`, while a truthy
`initial_state` is merged into the execution values untouched, so the
key flows into the successful final state. -/
theorem C10_counterexample :
    (match C10run.1 with
     | .success st _ => some (dGet? st.values "_mock_config")
     | _ => none)
      = some (some (.dict [("marker", .int 1)])) := by decide


/-! ## Witnesses: each hypothesis-bearing claim theorem applied at a
concrete input -/

/-- A human node with a truthy `interrupt` config. -/
def nodeC1 : Node :=
  { id := "hw", type := .human, config := [("interrupt", .bool true)] }

theorem C1_human_interrupt_witness :
    (((({} : ExecutionState).get "_human_approved" .null).truthy = false) →
      ∃ st2 em2,
        execLoop { graph := SIMPLE_ECHO } (0 + 1) [nodeC1] "hw" {} { runId := "w1" }
          = .err (.interrupt "hw"
              (dGetD nodeC1.config "prompt" (.str "Human review required"))
              (dGetD nodeC1.config "required_fields" (.list []))) st2 em2 ∧
        st2.nodesExecuted = ({} : ExecutionState).nodesExecuted ∧
        st2.checkpoints = ({} : ExecutionState).checkpoints) ∧
    (((({} : ExecutionState).get "_human_approved" .null).truthy = true) →
      ∃ nodes2 st2 em2,
        execLoop { graph := SIMPLE_ECHO } (0 + 1) [nodeC1] "hw" {} { runId := "w1" }
          = execLoop { graph := SIMPLE_ECHO } 0 nodes2
              (getNextNode { graph := SIMPLE_ECHO } nodes2 "hw" st2) st2 em2 ∧
        st2.get "_human_approved" .null = .bool false ∧
        st2.nodesExecuted = ({} : ExecutionState).nodesExecuted ++ [Val.str "hw"] ∧
        ∃ cp, st2.checkpoints = ({} : ExecutionState).checkpoints ++ [cp] ∧
          cp.nodeId = "hw") :=
  C1_human_interrupt { graph := SIMPLE_ECHO } 0 [nodeC1] "hw" {} { runId := "w1" }
    nodeC1 (by decide) (by decide) (by decide) (by decide) (by decide)

/-- A state holding one checkpoint, for the C2 witness. -/
def stC2W : ExecutionState :=
  { checkpoints := [ { checkpointId := 0, nodeId := "w2", values := []
                       messages := [], nodesExecuted := [] } ] }

theorem C2_checkpoint_independence_witness :
    (resultState (execLoop { graph := SIMPLE_ECHO } 0 [] "w2" stC2W
      { runId := "w2" })).checkpoints[0]? = stC2W.checkpoints[0]? :=
  C2_checkpoint_independence.1 { graph := SIMPLE_ECHO } 0 [] "w2" stC2W
    { runId := "w2" } 0 (by decide)

/-- The final state of a fresh `simple_echo` run. -/
def stC3W : ExecutionState :=
  { values := [("message", .str "hi"), ("last_response", .str "Echo: hi")]
    messages := [ .dict [ ("role", .str "assistant"), ("content", .str "Echo: hi")
                        , ("node_id", .str "echo") ] ]
    currentNode := none
    nodesExecuted := [.str "echo"]
    checkpoints :=
      [ { checkpointId := 0, nodeId := "echo"
          values := [("message", .str "hi"), ("last_response", .str "Echo: hi")]
          messages := [ .dict [ ("role", .str "assistant")
                              , ("content", .str "Echo: hi")
                              , ("node_id", .str "echo") ] ]
          nodesExecuted := [.str "echo"] } ] }

/-- The emitter of that `simple_echo` run. -/
def emC3W : Emitter :=
  { runId := "c3w"
    events :=
      [ { type := .nodeStarted, runId := "c3w", nodeId := some "echo"
          data := [ ("node_type", .str "llm")
                  , ("input", .dict [("state_keys", .list [.str "message"])]) ] }
      , { type := .llmStart, runId := "c3w", nodeId := some "echo"
          data := [ ("model", .str "gpt-4-mock")
                  , ("prompt_preview", .str "Echo: \x7bmessage\x7d") ] }
      , { type := .llmEnd, runId := "c3w", nodeId := some "echo"
          data := [ ("model", .str "gpt-4-mock")
                  , ("response_preview", .str "Echo: hi")
                  , ("tokens", .dict [ ("input", .int 10), ("output", .int 15)
                                     , ("total", .int 25) ])
                  , ("duration_ms", .int 50) ] }
      , { type := .nodeCompleted, runId := "c3w", nodeId := some "echo"
          data := [ ("output", .dict [("state_keys",
                      .list [.str "message", .str "last_response"])])
                  , ("duration_ms", .int 0) ] }
      , { type := .checkpointCreated, runId := "c3w", nodeId := some "echo"
          data := [ ("checkpoint_id", .int 0)
                  , ("state_keys", .list [.str "message", .str "last_response"]) ] } ] }

theorem C3_checkpoint_per_node_witness :
    stC3W.checkpoints.map (fun c => Val.str c.nodeId) = stC3W.nodesExecuted ∧
    ∀ v ∈ stC3W.nodesExecuted, execNodeOk SIMPLE_ECHO v :=
  C3_checkpoint_per_node SIMPLE_ECHO (by decide) 100 100 [("message", .str "hi")] 8
    { runId := "c3w" } stC3W emC3W (by decide)

/-- An llm node with a truthy `should_fail` config. -/
def nodeC4 : Node :=
  { id := "fw", type := .llm
    config := [("should_fail", .bool true), ("error_message", .str "boom")] }

theorem C4_llm_should_fail_witness :
    ∃ st2 em2,
      execLoop { graph := SIMPLE_ECHO } (0 + 1) [nodeC4] "fw" {} { runId := "w4" }
        = .err (.execError
            (Val.pyStr (dGetD nodeC4.config "error_message"
              (.str "Simulated LLM failure"))) (some "fw")) st2 em2 ∧
      st2.nodesExecuted = ({} : ExecutionState).nodesExecuted ∧
      st2.checkpoints = ({} : ExecutionState).checkpoints ∧
      ∃ ev1 ev2, em2.events = ({ runId := "w4" } : Emitter).events ++ [ev1, ev2] ∧
        ev1.type = .nodeStarted ∧ ev1.nodeId = some "fw" ∧
        ev2.type = .nodeFailed ∧ ev2.nodeId = some "fw" ∧
        dGet? ev2.data "error" = some (.str (Val.pyStr (dGetD nodeC4.config
          "error_message" (.str "Simulated LLM failure")))) :=
  C4_llm_should_fail { graph := SIMPLE_ECHO } 0 [nodeC4] "fw" {} { runId := "w4" }
    nodeC4 (by decide) (by decide) (by decide) (by decide) (by decide) (by decide)

/-- The emitter of the node-not-found run of the C5 witness. -/
def emC5W : Emitter :=
  { runId := "run-c5w"
    events :=
      [ { type := .runStarted, runId := "run-c5w", data := [("input", .dict [])] }
      , { type := .runFailed, runId := "run-c5w"
          data := [("error", .str "Node not found: ghost")] } ] }

theorem C5_node_not_found_witness :
    emC5W.events.countP (fun e => e.type == EventType.runFailed) = 1 ∧
    emC5W.events.getLast?
      = some { type := .runFailed, runId := "run-c5w", nodeId := none
               data := [("error", .str "Node not found: ghost")] } ∧
    ((none : Option String) = none →
      ∃ bad, "Node not found: ghost" = "Node not found: " ++ bad) :=
  C5_node_not_found "run-c5w" "simple_echo" [] none (some "ghost") 8
    "Node not found: ghost" none emC5W [] (by decide)

theorem C7_token_summary_witness :
    (({ runId := "w7" } : Emitter).emit
        { type := .nodeStarted, runId := "w7" }).getTokenSummary
      = ({ runId := "w7" } : Emitter).getTokenSummary :=
  C7_token_summary.2.2.1 { runId := "w7" }
    { type := .nodeStarted, runId := "w7" } (by decide)

/-- Run data naming an unknown graph, for the C8 witness. -/
def rdW8 : Dict := [("run_id", .str "rw8"), ("graph_id", .str "nope")]

/-- Worker state after dispatching `rdW8`. -/
def w2W8 : WorkerState :=
  { workerId := "w8w", status := "idle", activeRuns := [], totalRuns := 1
    failedRuns := 1 }

/-- Posts produced by dispatching `rdW8`. -/
def postsW8 : List Post :=
  [ .workerEvent (.str "rw8") "run_in_progress"
      [("status", .str "in_progress"), ("thread_id", .null)]
  , .workerEvent (.str "rw8") "run_failed"
      [ ("status", .str "error"), ("thread_id", .null)
      , ("error", .str (unknownGraphMessage "nope")) ] ]

theorem C8_worker_cleanup_witness :
    vGet? w2W8.activeRuns (dGetD rdW8 "run_id" .null) = none ∧
    w2W8.status = (if w2W8.activeRuns.isEmpty then "idle" else "running") ∧
    w2W8.totalRuns = ({ workerId := "w8w" } : WorkerState).totalRuns + 1 ∧
    postsW8.any (fun p => p.isRunEvents) = (dispatchOutcome rdW8 4).isSuccess ∧
    w2W8.failedRuns
      = ({ workerId := "w8w" } : WorkerState).failedRuns
        + (if (dispatchOutcome rdW8 4).isFailureBranch then 1 else 0) ∧
    (∀ nid prompt fields emx,
      dispatchOutcome rdW8 4 = .interrupted nid prompt fields emx →
      updateRunStatusPost (dGetD rdW8 "thread_id" .null)
        (dGetD rdW8 "run_id" .null) "interrupted"
        (some [ ("interrupted_at", .str nid), ("prompt", prompt)
              , ("required_fields", fields) ]) ∈ postsW8) :=
  C8_worker_cleanup { workerId := "w8w" } rdW8 4 w2W8 postsW8 (by decide)

/-- A truthy `initial_state` payload for the C9 witness. -/
def dW9 : Dict := [("values", .dict [("a", .int 1)]), ("messages", .list [.int 7])]

theorem C9_resume_state_merge_witness :
    (∀ (ex : GraphExecutor) (fuel : Nat) (rf : Option String) (em : Emitter),
      ex.execute fuel [("a", Val.int 2)] (some dW9) rf em
        = execLoop ex fuel ex.graph.nodes (startNodeOf ex.graph rf)
            (GraphExecutor.initState (some dW9) [("a", Val.int 2)]) em) ∧
    (∀ k v, dGet? [("a", Val.int 2)] k = some v →
      dGet? (GraphExecutor.initState (some dW9) [("a", Val.int 2)]).values k
        = some v) ∧
    (∀ k, dGet? [("a", Val.int 2)] k = none →
      dGet? (GraphExecutor.initState (some dW9) [("a", Val.int 2)]).values k
        = dGet? ((dGetD dW9 "values" (.dict [])).asDictD) k) ∧
    (GraphExecutor.initState (some dW9) [("a", Val.int 2)]).messages
      = (dGetD dW9 "messages" (.list [])).asListD ∧
    (GraphExecutor.initState (some dW9) [("a", Val.int 2)]).nodesExecuted
      = (dGetD dW9 "nodes_executed" (.list [])).asListD ∧
    (GraphExecutor.initState (some dW9) [("a", Val.int 2)]).checkpoints = [] :=
  C9_resume_state_merge dW9 [("a", Val.int 2)] (by decide) (by decide)

/-- The C10 witness input: a falsy `_mock_config` beside another key. -/
def inW10 : Dict := [("_mock_config", .dict []), ("x", .int 3)]

theorem C10_input_pop_witness :
    [("x", Val.int 3)] = dErase inW10 "_mock_config" ∧
    dGet? [("x", Val.int 3)] "_mock_config" = none ∧
    (∀ k, k ≠ "_mock_config" → dGet? [("x", Val.int 3)] k = dGet? inW10 k) ∧
    (∀ em, runOutcomeEmitter (.unknownGraph (unknownGraphMessage "nope")) = some em →
      em.events.head?
        = some { type := .runStarted, runId := "w10"
                 data := [("input", .dict (dErase inW10 "_mock_config"))] }) :=
  C10_input_pop "w10" "nope" inW10 none none 1
    (.unknownGraph (unknownGraphMessage "nope")) [("x", Val.int 3)] (by decide)


end Duragraph
